import Mathlib

/-!
NeuroFleetX: booking validation, availability and lifecycle.

A shallow embedding of the booking logic of the NeuroFleetX frontend
(`src/Frontend/src/pages/VehicleBooking.js`, `src/Frontend/src/pages/MyBookings.js`,
`src/Frontend/src/pages/RouteAssignment.js`, `src/Frontend/src/pages/CustomerSignup.js`,
`src/Frontend/src/pages/CustomerDashboard.js`, `src/Frontend/src/pages/DriverRoutes.js`,
`src/Frontend/src/pages/DriverTelemetry.js`, `src/Frontend/src/components/Map.js`,
`src/Frontend/src/services/api.js`).

Conventions of the embedding:

* A JavaScript `Date` is its time value in milliseconds, `none` standing for an
  Invalid Date (time value `NaN`). Relational operators on dates compare the time
  values and are `false` as soon as one side is `NaN`.
* `Date.prototype.toISOString` throws a `RangeError` on an Invalid Date. The ISO
  string of a valid date is represented by the time value it encodes.
* An asynchronous handler is the ordered list of the effects it performs (state
  setters, dialogs, navigation, HTTP requests). The answer of the backend to a
  request is an input of the handler.
-/

namespace NeuroFleetX

/-! ## JavaScript values -/

/-- A JavaScript `Date`: the time value in milliseconds since the epoch, `none` for
an Invalid Date. -/
abbrev JSDate := Option Int

/-- Exceptions that can reach the `catch` blocks of the handlers. For a rejected
HTTP request `responseMessage` is `error.response?.data?.message`. -/
inductive JSError where
  | typeError
  | rangeError
  | requestError (responseMessage : Option String)
  deriving DecidableEq, Repr

namespace JSDate

/-- JavaScript `a >= b` on two dates. -/
def ge : JSDate → JSDate → Bool
  | some x, some y => decide (y ≤ x)
  | _, _ => false

/-- JavaScript `a < b` on two dates. -/
def lt : JSDate → JSDate → Bool
  | some x, some y => decide (x < y)
  | _, _ => false

/-- `Date.prototype.toISOString`: a `RangeError` on an Invalid Date. -/
def toISOString : JSDate → Except JSError Int
  | some t => .ok t
  | none => .error .rangeError

end JSDate

/-- `new Date(str)` for a form string. `parse` is the host's `Date.parse`; the empty
string never parses. -/
def newDate (parse : String → Option Int) (str : String) : JSDate :=
  if str = "" then none else parse str

/-- JavaScript `m || d` for an optional string: the default is taken when the value
is `undefined` or the empty string. -/
def orDefault (m : Option String) (d : String) : String :=
  match m with
  | some s => if s = "" then d else s
  | none => d

/-- The `data` object of a backend response, as far as the pages read it. -/
structure ResponseData where
  success : Bool
  available : Bool
  message : Option String
  deriving DecidableEq, Repr

/-- How an HTTP request issued through `api.js` ends: the promise resolves with a
response, or it rejects with an error whose `response?.data?.message` is given. -/
inductive ApiOutcome where
  | resolved (data : ResponseData)
  | rejected (responseMessage : Option String)
  deriving DecidableEq, Repr

/-- `error.response?.data?.message` of a caught exception. -/
def JSError.responseMessage : JSError → Option String
  | .requestError m => m
  | _ => none

/-! ## `VehicleBooking.js` -/

namespace VehicleBooking

/-- The `bookingData` form state (lines 20-28). -/
structure BookingData where
  startDate : String
  endDate : String
  purpose : String
  pickupLocation : String
  dropoffLocation : String
  contactNumber : String
  notes : String
  deriving DecidableEq, Repr

/-- A vehicle record as the page reads it. -/
structure Vehicle where
  id : Nat
  name : Option String
  model : Option String
  registrationNumber : Option String
  deriving DecidableEq, Repr

/-- The `currentUser` of the authentication context. -/
structure User where
  id : Nat
  name : Option String
  username : Option String
  deriving DecidableEq, Repr

/-- The argument of `bookingsAPI.checkAvailability` (lines 86-90). -/
structure AvailabilityRequest where
  vehicleId : Nat
  startDate : Int
  endDate : Int
  deriving DecidableEq, Repr

/-- The `booking` object passed to `bookingsAPI.create` (lines 142-155). -/
structure BookingRequest where
  userId : Nat
  userName : Option String
  vehicleId : Nat
  vehicleName : Option String
  vehicleRegistration : Option String
  startDate : Int
  endDate : Int
  purpose : String
  pickupLocation : String
  dropoffLocation : String
  contactNumber : String
  notes : String
  deriving DecidableEq, Repr

/-- The component state (lines 13-28). -/
structure State where
  loading : Bool
  vehicles : List Vehicle
  selectedVehicle : Option Vehicle
  showBookingForm : Bool
  checkingAvailability : Bool
  availabilityMessage : String
  bookingData : BookingData
  deriving DecidableEq, Repr

/-- What the handlers read from outside the component: the host's date parser, the
clock, the logged-in user and the answers of the backend. -/
structure Env where
  parse : String → Option Int
  now : Int
  currentUser : Option User
  checkAvailabilityResponse : AvailabilityRequest → ApiOutcome
  createResponse : BookingRequest → ApiOutcome

/-- The observable steps of the two handlers, in program order. -/
inductive Effect where
  | setAvailabilityMessage (msg : String)
  | setCheckingAvailability (value : Bool)
  | consoleError (label : String)
  | preventDefault
  | alert (msg : String)
  | navigate (path : String)
  | bookingsAPI_checkAvailability (req : AvailabilityRequest)
  | bookingsAPI_create (booking : BookingRequest)
  deriving DecidableEq, Repr

/-- The state after one effect: only the two setters touch the component state. -/
def applyEffect (st : State) : Effect → State
  | .setAvailabilityMessage msg => { st with availabilityMessage := msg }
  | .setCheckingAvailability value => { st with checkingAvailability := value }
  | _ => st

/-- The state after a run of effects. -/
def applyEffects (st : State) (effs : List Effect) : State :=
  effs.foldl applyEffect st

/-- `a || b` on two optional strings (`currentUser.name || currentUser.username`). -/
def orElseStr (a b : Option String) : Option String :=
  match a with
  | some s => if s = "" then b else some s
  | none => b

/-- The `try` block of `checkAvailability` after the two setters (lines 86-101): the
effects performed and the exception thrown, if any. -/
def checkAvailabilityTry (env : Env) (st : State) (startDate endDate : JSDate) :
    List Effect × Option JSError :=
  match st.selectedVehicle with
  | none => ([], some .typeError)
  | some v =>
    match startDate.toISOString with
    | .error err => ([], some err)
    | .ok s =>
      match endDate.toISOString with
      | .error err => ([], some err)
      | .ok e =>
        let req : AvailabilityRequest := { vehicleId := v.id, startDate := s, endDate := e }
        match env.checkAvailabilityResponse req with
        | .rejected m => ([.bookingsAPI_checkAvailability req], some (.requestError m))
        | .resolved data =>
          if data.success && data.available then
            ([.bookingsAPI_checkAvailability req,
              .setAvailabilityMessage
                (orDefault data.message "✓ Vehicle is available for selected dates")], none)
          else
            ([.bookingsAPI_checkAvailability req,
              .setAvailabilityMessage
                (orDefault data.message "✗ Vehicle is not available for selected dates")], none)

/-- `checkAvailability` (lines 62-111). -/
def checkAvailability (env : Env) (st : State) : List Effect :=
  if st.bookingData.startDate = "" ∨ st.bookingData.endDate = "" then
    [.setAvailabilityMessage "⚠️ Please select start and end dates"]
  else
    let startDate := newDate env.parse st.bookingData.startDate
    let endDate := newDate env.parse st.bookingData.endDate
    if JSDate.ge startDate endDate then
      [.setAvailabilityMessage "⚠️ End date must be after start date"]
    else if JSDate.lt startDate (some env.now) then
      [.setAvailabilityMessage "⚠️ Start date cannot be in the past"]
    else
      let body := checkAvailabilityTry env st startDate endDate
      [.setCheckingAvailability true, .setAvailabilityMessage ""]
        ++ body.1
        ++ (match body.2 with
            | none => []
            | some err =>
              [.consoleError "Error checking availability:",
               .setAvailabilityMessage
                 ("❌ " ++ orDefault err.responseMessage
                   "Error checking availability. Please try again.")])
        ++ [.setCheckingAvailability false]

/-- The `try` block of `handleSubmit` (lines 142-164). -/
def handleSubmitTry (env : Env) (st : State) (user : User) (vehicle : Vehicle)
    (startDate endDate : JSDate) : List Effect × Option JSError :=
  match startDate.toISOString with
  | .error err => ([], some err)
  | .ok s =>
    match endDate.toISOString with
    | .error err => ([], some err)
    | .ok e =>
      let booking : BookingRequest :=
        { userId := user.id
          userName := orElseStr user.name user.username
          vehicleId := vehicle.id
          vehicleName := orElseStr vehicle.name vehicle.model
          vehicleRegistration := vehicle.registrationNumber
          startDate := s
          endDate := e
          purpose := st.bookingData.purpose
          pickupLocation := st.bookingData.pickupLocation
          dropoffLocation := st.bookingData.dropoffLocation
          contactNumber := st.bookingData.contactNumber
          notes := st.bookingData.notes }
      match env.createResponse booking with
      | .rejected m => ([.bookingsAPI_create booking], some (.requestError m))
      | .resolved data =>
        if data.success then
          ([.bookingsAPI_create booking, .alert "✓ Booking created successfully!",
            .navigate "/my-bookings"], none)
        else
          ([.bookingsAPI_create booking,
            .alert (orDefault data.message "Failed to create booking")], none)

/-- `handleSubmit` (lines 113-172). -/
def handleSubmit (env : Env) (st : State) : List Effect :=
  .preventDefault ::
  match st.selectedVehicle with
  | none => [.alert "Please select a vehicle"]
  | some vehicle =>
    match env.currentUser with
    | none => [.alert "Please login to book a vehicle", .navigate "/customer-login"]
    | some user =>
      let startDate := newDate env.parse st.bookingData.startDate
      let endDate := newDate env.parse st.bookingData.endDate
      if JSDate.ge startDate endDate then
        [.alert "End date must be after start date"]
      else if JSDate.lt startDate (some env.now) then
        [.alert "Start date cannot be in the past"]
      else
        let body := handleSubmitTry env st user vehicle startDate endDate
        body.1
          ++ (match body.2 with
              | none => []
              | some err =>
                [.consoleError "Error creating booking:",
                 .alert ("❌ " ++ orDefault err.responseMessage
                   "Failed to create booking. Please try again.")])

/-- A host parser for the `datetime-local` strings used in the examples (a browser
whose local time zone is UTC). -/
def sampleParse (str : String) : Option Int :=
  if str = "2024-06-01T09:00" then some 1717232400000
  else if str = "2024-06-01T10:00" then some 1717236000000
  else if str = "2024-06-01T11:00" then some 1717239600000
  else if str = "2024-06-01T12:00" then some 1717243200000
  else none

/-- A form filled in with the given dates. -/
def sampleForm (startDate endDate : String) : BookingData :=
  { startDate := startDate, endDate := endDate, purpose := "Airport transfer",
    pickupLocation := "Chennai Central", dropoffLocation := "Chennai Airport",
    contactNumber := "9876543210", notes := "" }

/-- A vehicle of the fleet. -/
def sampleVehicle : Vehicle :=
  { id := 3, name := some "Swift Dzire", model := some "Dzire",
    registrationNumber := some "TN-01-AB-1234" }

/-- A logged-in customer. -/
def sampleUser : User := { id := 42, name := some "Asha", username := some "asha" }

/-- The page with `sampleVehicle` selected and the form filled in. -/
def sampleState (startDate endDate : String) : State :=
  { loading := false, vehicles := [sampleVehicle], selectedVehicle := some sampleVehicle,
    showBookingForm := true, checkingAvailability := false, availabilityMessage := "",
    bookingData := sampleForm startDate endDate }

/-- An environment whose clock shows `now` and whose backend accepts every request. -/
def sampleEnv (now : Int) : Env :=
  { parse := sampleParse, now := now, currentUser := some sampleUser,
    checkAvailabilityResponse := fun _ =>
      .resolved { success := true, available := true, message := none },
    createResponse := fun _ =>
      .resolved { success := true, available := true, message := none } }

end VehicleBooking

/-! ## `MyBookings.js` -/

namespace MyBookings

/-- A booking record as the page reads it. -/
structure Booking where
  id : Nat
  status : String
  createdAt : JSDate
  deriving DecidableEq, Repr

/-- What `handleCancelBooking` reads from outside: the answer of the user to
`window.confirm` and the answer of the backend to the cancel request. -/
structure Env where
  confirmAnswer : Bool
  cancelResponse : Nat → ApiOutcome

/-- The observable steps of `handleCancelBooking`, in program order. -/
inductive Effect where
  | windowConfirm (msg : String)
  | bookingsAPI_cancel (bookingId : Nat)
  | alert (msg : String)
  | fetchBookings
  | setShowDetailsModal (value : Bool)
  | consoleError (label : String)
  deriving DecidableEq, Repr

/-- `handleCancelBooking` (lines 78-96). -/
def handleCancelBooking (env : Env) (bookingId : Nat) : List Effect :=
  .windowConfirm "Are you sure you want to cancel this booking?" ::
  if !env.confirmAnswer then []
  else
    match env.cancelResponse bookingId with
    | .rejected m =>
      [.bookingsAPI_cancel bookingId, .consoleError "Error cancelling booking:",
       .alert (orDefault m "Failed to cancel booking")]
    | .resolved data =>
      if data.success then
        [.bookingsAPI_cancel bookingId, .alert "Booking cancelled successfully",
         .fetchBookings, .setShowDetailsModal false]
      else
        [.bookingsAPI_cancel bookingId,
         .alert (orDefault data.message "Failed to cancel booking")]

/-- `canCancelBooking` (lines 143-145). -/
def canCancelBooking (booking : Booking) : Bool :=
  booking.status == "pending" || booking.status == "confirmed"

/-- The cancel button of a booking (lines 293-300 and 492-499): it is rendered only
when `canCancelBooking` holds, and its `onClick` runs `handleCancelBooking` on the
booking's id. `none` when no button is rendered. -/
def cancelButtonOnClick (env : Env) (booking : Booking) : Option (List Effect) :=
  if canCancelBooking booking then some (handleCancelBooking env booking.id) else none

/-- A booking of the list shown to the customer. -/
def sampleBooking (status : String) : Booking :=
  { id := 7, status := status, createdAt := some 1717236000000 }

end MyBookings

/-! ## The Booking Lifecycle Manager behind the REST endpoints

`api.js` only forwards `bookingsAPI.checkAvailability`, `confirm`, `start`, `complete`
and `cancel` to the backend; the service answering them is not part of the frontend
sources. -/

namespace BookingLifecycleManager

/-- Modelled from the spec: the status enum of a booking (section 3); the backend
that stores bookings is missing from the sources. -/
inductive Status where
  | pending
  | confirmed
  | active
  | completed
  | cancelled
  deriving DecidableEq, Repr

/-- Modelled from the spec: the error taxonomy of section 7; the backend raising
these errors is missing from the sources. -/
inductive BookingError where
  | invalidInterval
  | pastStartDate
  | vehicleNotFound
  | vehicleUnavailable
  | bookingNotFound
  | invalidTransition
  | invalidBookingState
  | concurrencyConflict
  deriving DecidableEq, Repr

/-- Modelled from the spec: the booking entity of section 3, with the attributes the
availability check and the state machine read; the backend entity is missing from the
sources. -/
structure Booking where
  id : Nat
  userId : Nat
  vehicleId : Nat
  startDate : Int
  endDate : Int
  status : Status
  deriving DecidableEq, Repr

/-- Modelled from the spec: the live statuses of the glossary (pending, confirmed,
active); the backend is missing from the sources. -/
def isLive : Status → Bool
  | .pending => true
  | .confirmed => true
  | .active => true
  | _ => false

/-- Modelled from the spec: `findLiveBookingsByVehicle` of section 6, the bookings of
a vehicle whose status is live; the persistence store is missing from the sources. -/
def findLiveBookingsByVehicle (store : List Booking) (vehicleId : Nat) : List Booking :=
  store.filter (fun b => b.vehicleId == vehicleId && isLive b.status)

/-- Modelled from the spec: the half-open overlap test of section 4.1 between an
existing interval `[s, e)` and the requested one, `s < endDate AND e > startDate`; the
backend is missing from the sources. -/
def overlaps (b : Booking) (startDate endDate : Int) : Bool :=
  decide (b.startDate < endDate) && decide (b.endDate > startDate)

/-- Modelled from the spec: the result of `checkAvailability`, the flag and, when
unavailable, the conflicting booking whose window is the reason; the backend is
missing from the sources. -/
structure Availability where
  available : Bool
  conflict : Option Booking
  deriving DecidableEq, Repr

/-- Modelled from the spec: operation `checkAvailability(vehicleId, startDate,
endDate)` of section 4.1, with its three errors in the order the spec lists them; the
backend endpoint `/bookings/check-availability` is missing from the sources. -/
def checkAvailability (vehicleExists : Nat → Bool) (store : List Booking) (now : Int)
    (vehicleId : Nat) (startDate endDate : Int) : Except BookingError Availability :=
  if startDate ≥ endDate then .error .invalidInterval
  else if startDate < now then .error .pastStartDate
  else if !vehicleExists vehicleId then .error .vehicleNotFound
  else
    match (findLiveBookingsByVehicle store vehicleId).find?
        (fun b => overlaps b startDate endDate) with
    | some b => .ok { available := false, conflict := some b }
    | none => .ok { available := true, conflict := none }

/-- Modelled from the spec: the transition table of section 4.1; the backend state
machine is missing from the sources. -/
def allowed : Status → Status → Bool
  | .pending, .confirmed => true
  | .confirmed, .active => true
  | .active, .completed => true
  | .pending, .cancelled => true
  | .confirmed, .cancelled => true
  | _, _ => false

/-- Modelled from the spec: operation `transition(bookingId, targetStatus, actor)` of
section 4.1 on a store of bookings, returning the outcome and the store afterwards; the
backend endpoints behind `bookingsAPI.confirm`, `start`, `complete` and `cancel` are
missing from the sources. -/
def transition (store : List Booking) (bookingId : Nat) (targetStatus : Status)
    (_actor : String) : Except BookingError Booking × List Booking :=
  match store.find? (fun b => b.id == bookingId) with
  | none => (.error .bookingNotFound, store)
  | some b =>
    if allowed b.status targetStatus then
      let updated : Booking := { b with status := targetStatus }
      (.ok updated, store.map (fun x => if x.id == bookingId then updated else x))
    else (.error .invalidTransition, store)

/-- The time value of 2024-06-01 at the given hour (UTC), in milliseconds. -/
def june1 (hour : Int) : Int := 1717200000000 + hour * 3600000

/-- Vehicle V of the spec's example: one confirmed booking from 10:00 to 12:00. -/
def exampleStore : List Booking :=
  [{ id := 1, userId := 42, vehicleId := 3, startDate := june1 10, endDate := june1 12,
     status := .confirmed }]

end BookingLifecycleManager

/-! ## `VehicleBooking.js`: requests -/

namespace VehicleBooking

/-- The property names of the `booking` object literal passed to `bookingsAPI.create`
(lines 142-155), in source order. -/
def BookingRequest.keys : List String :=
  ["userId", "userName", "vehicleId", "vehicleName", "vehicleRegistration", "startDate",
   "endDate", "purpose", "pickupLocation", "dropoffLocation", "contactNumber", "notes"]

/-- The effects that are HTTP requests. -/
def Effect.isRequest : Effect → Bool
  | .bookingsAPI_checkAvailability _ => true
  | .bookingsAPI_create _ => true
  | _ => false

end VehicleBooking

/-! ## `api.js`: the response interceptor -/

namespace Api

/-- The `response` of a failed request, as far as the interceptor reads it. -/
structure ErrorResponse where
  status : Nat
  message : Option String
  deriving DecidableEq, Repr

/-- The error object handed to the rejection handler; `response` is absent for a
network error. -/
structure AxiosError where
  response : Option ErrorResponse
  deriving DecidableEq, Repr

/-- The browser's `localStorage`: its key/value entries. -/
abbrev LocalStorage := List (String × String)

/-- `localStorage.removeItem(key)`. -/
def removeItem (key : String) (storage : LocalStorage) : LocalStorage :=
  storage.filter (fun kv => kv.1 != key)

/-- `localStorage.getItem(key)`. -/
def getItem (key : String) (storage : LocalStorage) : Option String :=
  (storage.find? (fun kv => kv.1 == key)).map (fun kv => kv.2)

/-- The part of the browser the interceptor acts on. -/
structure Browser where
  localStorage : LocalStorage
  locationHref : String
  deriving DecidableEq, Repr

/-- The rejection handler of `api.interceptors.response` (lines 29-37): the browser
afterwards and the error the returned promise rejects with. -/
def responseErrorInterceptor (error : AxiosError) (browser : Browser) :
    Browser × AxiosError :=
  if error.response.map (fun r => r.status) = some 401 then
    ({ localStorage := removeItem "user" (removeItem "token" browser.localStorage),
       locationHref := "/" }, error)
  else (browser, error)

end Api

/-! ## `CustomerSignup.js` -/

/-- The `length` of a JavaScript string: the number of UTF-16 code units. -/
def jsLength (s : String) : Nat :=
  (s.toList.map (fun c => if c.val.toNat < 65536 then 1 else 2)).sum

namespace CustomerSignup

/-- The `formData` state (lines 11-18). -/
structure FormData where
  username : String
  email : String
  password : String
  confirmPassword : String
  name : String
  phoneNumber : String
  deriving DecidableEq, Repr

/-- The rest object `customerData` of line 51: the form without `confirmPassword`. -/
structure CustomerData where
  username : String
  email : String
  password : String
  name : String
  phoneNumber : String
  deriving DecidableEq, Repr

/-- The observable steps of `handleSubmit`, in program order. -/
inductive Effect where
  | preventDefault
  | setLoading (value : Bool)
  | setError (msg : String)
  | customersAPI_signup (data : CustomerData)
  | alert (msg : String)
  | navigate (path : String)
  | consoleError (label : String)
  deriving DecidableEq, Repr

/-- The `loading` and `error` state of the page. -/
structure State where
  loading : Bool
  error : String
  deriving DecidableEq, Repr

/-- The state after one effect. -/
def applyEffect (st : State) : Effect → State
  | .setLoading value => { st with loading := value }
  | .setError msg => { st with error := msg }
  | _ => st

/-- The state after a run of effects. -/
def applyEffects (st : State) (effs : List Effect) : State :=
  effs.foldl applyEffect st

/-- `handleSubmit` (lines 32-69); `signupResponse` is the answer of the backend. -/
def handleSubmit (signupResponse : CustomerData → ApiOutcome) (formData : FormData) :
    List Effect :=
  [.preventDefault, .setLoading true, .setError ""] ++
  if formData.password ≠ formData.confirmPassword then
    [.setError "Passwords do not match", .setLoading false]
  else if jsLength formData.password < 6 then
    [.setError "Password must be at least 6 characters long", .setLoading false]
  else
    let customerData : CustomerData :=
      { username := formData.username, email := formData.email,
        password := formData.password, name := formData.name,
        phoneNumber := formData.phoneNumber }
    (match signupResponse customerData with
      | .rejected m =>
        [.customersAPI_signup customerData, .consoleError "Signup error:",
         .setError (orDefault m "Failed to create account. Please try again.")]
      | .resolved data =>
        if data.success then
          [.customersAPI_signup customerData,
           .alert "Account created successfully! Please login.",
           .navigate "/customer-login"]
        else
          [.customersAPI_signup customerData,
           .setError (orDefault data.message "Signup failed")])
      ++ [.setLoading false]

/-- A filled-in signup form with the given password and confirmation. -/
def sampleForm (password confirmPassword : String) : FormData :=
  { username := "asha", email := "asha@example.com", password := password,
    confirmPassword := confirmPassword, name := "Asha", phoneNumber := "9876543210" }

/-- A backend that accepts every signup. -/
def acceptingBackend : CustomerData → ApiOutcome :=
  fun _ => .resolved { success := true, available := false, message := none }

end CustomerSignup

/-! ## Sorting by creation date (`MyBookings.js`, `CustomerDashboard.js`) -/

/-- JavaScript `a - b` on two dates: the difference of the time values, `none` (NaN)
when one of them is an Invalid Date. -/
def JSDate.sub : JSDate → JSDate → Option Int
  | some x, some y => some (x - y)
  | _, _ => none

/-- `Array.prototype.sort(comparefn)`. ECMAScript sorts so that `comparefn(a, b) <= 0`
for every `a` placed before `b`, keeps the order of elements that compare equal (the
sort is stable) and reads a NaN result of `comparefn` as `+0`. For a consistent
comparator these requirements fix the result, which the stable insertion sort computes;
for an inconsistent comparator the order is implementation-defined. -/
def arraySort {α : Type} (comparefn : α → α → Option Int) (l : List α) : List α :=
  l.insertionSort (fun a b => (comparefn a b).getD 0 ≤ 0)

namespace MyBookings

/-- The comparator of lines 47-49 and of `CustomerDashboard.js` line 60,
`(a, b) => new Date(b.createdAt) - new Date(a.createdAt)`; the field `createdAt` of
the embedding is the date `new Date(booking.createdAt)`. -/
def newestFirst (a b : Booking) : Option Int :=
  JSDate.sub b.createdAt a.createdAt

/-- The observable steps of `fetchBookings`, in program order (`console.log` output is
not recorded). -/
inductive FetchEffect where
  | setLoading (value : Bool)
  | navigate (path : String)
  | bookingsAPI_getByUser (userId : Nat)
  | setBookings (bookings : List Booking)
  | consoleError (label : String)
  deriving DecidableEq, Repr

/-- `fetchBookings` (lines 30-59). `currentUserId` is `currentUser.id` when a user is
logged in; `response userId` is the list `response.data?.data || response.data || []`
of a resolved request and `none` for a rejected one. -/
def fetchBookings (currentUserId : Option Nat) (response : Nat → Option (List Booking)) :
    List FetchEffect :=
  .setLoading true ::
  (match currentUserId with
    | none => [.navigate "/customer-login"]
    | some userId =>
      match response userId with
      | some bookingsData =>
        [.bookingsAPI_getByUser userId, .setBookings (arraySort newestFirst bookingsData)]
      | none =>
        [.bookingsAPI_getByUser userId, .consoleError "Error fetching bookings:",
         .consoleError "Error response:", .setBookings []])
    ++ [.setLoading false]

/-- Three bookings, the first and the last created at the same instant. -/
def sampleBookings : List Booking :=
  [{ id := 1, status := "completed", createdAt := some 1717236000000 },
   { id := 2, status := "pending", createdAt := some 1717243200000 },
   { id := 3, status := "confirmed", createdAt := some 1717236000000 }]

end MyBookings

/-! ## `CustomerDashboard.js` -/

namespace CustomerDashboard

/-- The argument of `setRecentBookings` (lines 58-62): the bookings sorted newest first,
then `slice(0, 5)`. -/
def recentBookings (bookings : List MyBookings.Booking) : List MyBookings.Booking :=
  (arraySort MyBookings.newestFirst bookings).take 5

end CustomerDashboard

/-! ## `DriverRoutes.js` -/

namespace DriverRoutes

/-- A route record as the page reads it. -/
structure Route where
  id : Nat
  status : String
  deriving DecidableEq, Repr

/-- `filteredRoutes` (lines 41-47). -/
def filteredRoutes (filter : String) (routes : List Route) : List Route :=
  routes.filter (fun route =>
    if filter = "all" then true
    else if filter = "pending" then route.status == "assigned"
    else if filter = "active" then route.status == "in_progress"
    else route.status == filter)

/-- A route list with one route of each backend status. -/
def sampleRoutes : List Route :=
  [{ id := 1, status := "assigned" }, { id := 2, status := "completed" },
   { id := 3, status := "in_progress" }, { id := 4, status := "assigned" },
   { id := 5, status := "cancelled" }]

end DriverRoutes

/-! ## `RouteAssignment.js` -/

namespace RouteAssignment

/-- A booking record as the page reads it. -/
structure Booking where
  id : Nat
  status : String
  purpose : String
  pickupLocation : Option String
  dropoffLocation : Option String
  assignedDriverId : Option String
  deriving DecidableEq, Repr

/-- A driver record as the page reads it; the `select` element hands the chosen id
back as a string. -/
structure Driver where
  id : String
  name : Option String
  username : Option String
  deriving DecidableEq, Repr

/-- The object `JSON.parse(localStorage.getItem("user") || "{}")`, as far as the
handler reads it. -/
structure StoredUser where
  username : Option String
  name : Option String
  deriving DecidableEq, Repr

/-- The `routeData` object of lines 61-71. -/
structure RouteData where
  driverId : String
  driverName : Option String
  driverUsername : Option String
  startLocationName : Option String
  endLocationName : Option String
  distance : Nat
  estimatedDuration : Nat
  notes : String
  createdByUsername : String
  deriving DecidableEq, Repr

/-- The second argument of `bookingsAPI.assignDriver` (lines 79-83). -/
structure AssignData where
  driverId : String
  driverName : Option String
  routeId : Option Nat
  deriving DecidableEq, Repr

/-- How `routesAPI.create` ends: resolved with the value
`routeResponse.data?.data || routeResponse.data` (`none` when it is undefined, otherwise
the `id` of the route, itself possibly undefined), or rejected. -/
inductive CreateRouteOutcome where
  | resolved (route : Option (Option Nat))
  | rejected (responseMessage : Option String)
  deriving DecidableEq, Repr

/-- The component state read by the handlers (lines 9-16). -/
structure State where
  bookings : List Booking
  drivers : List Driver
  selectedBooking : Option Booking
  selectedDriver : String
  showAssignModal : Bool
  assignmentLoading : Bool
  deriving DecidableEq, Repr

/-- What `confirmAssignment` reads from outside the component: the parsed stored user
(an exception when `JSON.parse` or the property access throws) and the answers of the
backend. -/
structure Env where
  parsedUser : Except JSError StoredUser
  createRouteResponse : RouteData → CreateRouteOutcome
  assignDriverResponse : Nat → AssignData → ApiOutcome

/-- The observable steps of `confirmAssignment`, in program order (`console.log` output
is not recorded). -/
inductive Effect where
  | alert (msg : String)
  | setAssignmentLoading (value : Bool)
  | routesAPI_create (routeData : RouteData)
  | bookingsAPI_assignDriver (bookingId : Nat) (data : AssignData)
  | setShowAssignModal (value : Bool)
  | fetchData
  | consoleError (label : String)
  deriving DecidableEq, Repr

/-- `a || b` on two optional strings. -/
def orElseStr (a b : Option String) : Option String :=
  match a with
  | some s => if s = "" then b else some s
  | none => b

/-- `handleAssignDriver` (lines 39-43). -/
def handleAssignDriver (st : State) (booking : Booking) : State :=
  { st with selectedBooking := some booking, selectedDriver := "", showAssignModal := true }

/-- The "Assign Driver & Route" button of a booking card (lines 247-260): it is rendered
exactly when `booking.assignedDriverId` is falsy. -/
def assignButtonShown (booking : Booking) : Bool :=
  match booking.assignedDriverId with
  | some s => s == ""
  | none => true

/-- The `try` block of `confirmAssignment` after the first setter (lines 53-87): the
effects performed and the exception thrown, if any. -/
def confirmAssignmentTry (env : Env) (st : State) : List Effect × Option JSError :=
  match env.parsedUser with
  | .error err => ([], some err)
  | .ok currentUser =>
    match st.drivers.find? (fun d => d.id == st.selectedDriver) with
    | none => ([], some .typeError)
    | some driver =>
      match st.selectedBooking with
      | none => ([], some .typeError)
      | some selectedBooking =>
        let routeData : RouteData :=
          { driverId := driver.id
            driverName := orElseStr driver.name driver.username
            driverUsername := driver.username
            startLocationName := selectedBooking.pickupLocation
            endLocationName := selectedBooking.dropoffLocation
            distance := 0
            estimatedDuration := 0
            notes := "Booking: " ++ selectedBooking.purpose
            createdByUsername :=
              orDefault (orElseStr currentUser.username currentUser.name) "fleet-manager" }
        match env.createRouteResponse routeData with
        | .rejected m => ([.routesAPI_create routeData], some (.requestError m))
        | .resolved none => ([.routesAPI_create routeData], some .typeError)
        | .resolved (some routeId) =>
          let data : AssignData :=
            { driverId := driver.id
              driverName := orElseStr driver.name driver.username
              routeId := routeId }
          match env.assignDriverResponse selectedBooking.id data with
          | .rejected m =>
            ([.routesAPI_create routeData,
              .bookingsAPI_assignDriver selectedBooking.id data], some (.requestError m))
          | .resolved _ =>
            ([.routesAPI_create routeData,
              .bookingsAPI_assignDriver selectedBooking.id data,
              .alert "Driver and route assigned successfully!",
              .setShowAssignModal false, .fetchData], none)

/-- `confirmAssignment` (lines 45-97). -/
def confirmAssignment (env : Env) (st : State) : List Effect :=
  if st.selectedDriver = "" then [.alert "Please select a driver"]
  else
    let body := confirmAssignmentTry env st
    [.setAssignmentLoading true]
      ++ body.1
      ++ (match body.2 with
          | none => []
          | some err =>
            [.consoleError "Error assigning driver:",
             .alert (orDefault err.responseMessage
               "Failed to assign driver. Please try again.")])
      ++ [.setAssignmentLoading false]

/-- A driver of the fleet. -/
def sampleDriver : Driver := { id := "d1", name := some "Ravi", username := some "ravi" }

/-- A booking without an assigned driver, in the given status. -/
def sampleBooking (status : String) : Booking :=
  { id := 9, status := status, purpose := "Airport transfer",
    pickupLocation := some "Chennai Central", dropoffLocation := some "Chennai Airport",
    assignedDriverId := none }

/-- The page after the manager opened the modal for `sampleBooking status` and chose
`sampleDriver`. -/
def sampleState (status : String) : State :=
  { handleAssignDriver
      { bookings := [sampleBooking status], drivers := [sampleDriver],
        selectedBooking := none, selectedDriver := "", showAssignModal := false,
        assignmentLoading := false }
      (sampleBooking status) with selectedDriver := "d1" }

/-- A logged-in fleet manager and a backend that accepts both requests, numbering the
new route 77. -/
def acceptingEnv : Env :=
  { parsedUser := .ok { username := some "manager", name := none },
    createRouteResponse := fun _ => .resolved (some (some 77)),
    assignDriverResponse := fun _ _ =>
      .resolved { success := true, available := false, message := none } }

end RouteAssignment

/-! ## `Map.js`: driver locations and map centre -/

/-- A JavaScript number as the map reads it: a finite value is the rational it denotes,
`none` is NaN. Positions are only passed on, never computed with. -/
abbrev JSNumber := Option ℚ

/-- The value of a coordinate field of a record received from the backend. -/
inductive JSValue where
  | undefined
  | number (x : JSNumber)
  | string (s : String)
  deriving DecidableEq, Repr

namespace JSValue

/-- JavaScript truthiness: `undefined`, `0`, NaN and the empty string are falsy. -/
def truthy : JSValue → Bool
  | .undefined => false
  | .number none => false
  | .number (some x) => x != 0
  | .string s => s != ""

/-- `parseFloat(value)`: a number is returned as it is, a string is handed to the
host's parser `parse`, `undefined` gives NaN. -/
def parseFloat (parse : String → JSNumber) : JSValue → JSNumber
  | .undefined => none
  | .number x => x
  | .string s => parse s

end JSValue

namespace FleetMap

/-- A driver record as the map reads it. -/
structure Driver where
  id : Option String
  latitude : JSValue
  longitude : JSValue
  gpsEnabled : Bool
  currentSpeed : JSNumber
  lastLocationUpdate : Option String
  deriving DecidableEq, Repr

/-- An entry of `driverLocations` (lines 259-266). -/
structure DriverLocation where
  id : String
  position : JSNumber × JSNumber
  driverInfo : Driver
  gpsEnabled : Bool
  speed : ℚ
  lastUpdate : Option String
  deriving DecidableEq, Repr

/-- `defaultCenter` (lines 141-144): Chennai. -/
def defaultCenter : ℚ × ℚ := (13.0827, 80.2707)

/-- `driverLocations` (lines 250-268): the drivers whose two coordinate fields are
truthy, mapped to location entries; the final `filter(Boolean)` keeps every entry, an
object being truthy. -/
def driverLocations (parse : String → JSNumber) (drivers : List Driver) :
    List DriverLocation :=
  (((drivers.filter (fun driver => driver.latitude.truthy && driver.longitude.truthy)).enum).map
    (fun (entry : Nat × Driver) =>
      let lat := entry.2.latitude.parseFloat parse
      let lng := entry.2.longitude.parseFloat parse
      ({ id := orDefault entry.2.id ("driver-" ++ toString entry.1)
         position := (lat, lng)
         driverInfo := entry.2
         gpsEnabled := entry.2.gpsEnabled
         speed := entry.2.currentSpeed.getD 0
         lastUpdate := entry.2.lastLocationUpdate } : DriverLocation))).filter
    (fun _ => true)

/-- `mapCenter` (lines 271-282). -/
def mapCenter (driverLocations : List DriverLocation) : JSNumber × JSNumber :=
  match driverLocations.head? with
  | some first =>
    if first.gpsEnabled then first.position
    else first.position
  | none => (some defaultCenter.1, some defaultCenter.2)

/-- A host `parseFloat` for the coordinate strings of the examples. -/
def sampleParseFloat (s : String) : JSNumber :=
  if s = "12.9716" then some 12.9716
  else if s = "77.5946" then some 77.5946
  else if s = "13.0827" then some 13.0827
  else if s = "80.2707" then some 80.2707
  else if s = "0" then some 0
  else none

/-- A driver with the given coordinate fields. -/
def sampleDriver (id : String) (latitude longitude : JSValue) (gpsEnabled : Bool) : Driver :=
  { id := some id, latitude := latitude, longitude := longitude, gpsEnabled := gpsEnabled,
    currentSpeed := some 0, lastLocationUpdate := none }

/-- Two drivers with coordinates: the first in Bengaluru without GPS, the second in
Chennai with GPS enabled. -/
def mixedDrivers : List Driver :=
  [sampleDriver "d1" (.string "12.9716") (.string "77.5946") false,
   sampleDriver "d2" (.string "13.0827") (.string "80.2707") true]

end FleetMap

/-! ## `DriverTelemetry.js` -/

namespace DriverTelemetry

/-- A telemetry record as the page reads it; `timestamp` is the instant the record's
timestamp denotes, in milliseconds. -/
structure TelemetryRecord where
  latitude : JSValue
  longitude : JSValue
  speed : JSValue
  timestamp : Int
  deriving DecidableEq, Repr

/-- The `currentLocation` state (lines 57-62). -/
structure Location where
  lat : JSNumber
  lng : JSNumber
  speed : JSValue
  timestamp : Int
  deriving DecidableEq, Repr

/-- The observable steps of `fetchTelemetryData`, in program order. -/
inductive Effect where
  | setLoading (value : Bool)
  | telemetryAPI_getByDriver (driverId : Nat)
  | setTelemetryData (data : List TelemetryRecord)
  | setCurrentLocation (location : Location)
  | consoleError (label : String)
  deriving DecidableEq, Repr

/-- What `fetchTelemetryData` reads from outside the component. `storedUser` is `none`
when local storage has no `user` item; otherwise it is the exception thrown by
`JSON.parse` or the value of `userData.id` (`none` when falsy). `response driverId` is
the list `response.data?.data || response.data || []` of a resolved request and `none`
for a rejected one. -/
structure Env where
  parse : String → JSNumber
  storedUser : Option (Except JSError (Option Nat))
  response : Nat → Option (List TelemetryRecord)

/-- `fetchTelemetryData` (lines 43-72). -/
def fetchTelemetryData (env : Env) : List Effect :=
  .setLoading true ::
  (match env.storedUser with
    | none => []
    | some (.error _) => [.consoleError "Error fetching telemetry:", .setTelemetryData []]
    | some (.ok none) => []
    | some (.ok (some driverId)) =>
      match env.response driverId with
      | none =>
        [.telemetryAPI_getByDriver driverId, .consoleError "Error fetching telemetry:",
         .setTelemetryData []]
      | some data =>
        [.telemetryAPI_getByDriver driverId, .setTelemetryData data]
          ++ (match data.head? with
              | some latest =>
                [.setCurrentLocation
                  { lat := latest.latitude.parseFloat env.parse
                    lng := latest.longitude.parseFloat env.parse
                    speed := latest.speed
                    timestamp := latest.timestamp }]
              | none => []))
    ++ [.setLoading false]

/-- Two records of one trip in the order they were recorded: Bengaluru at 10:00, then
Chennai at 12:00. -/
def sampleHistory : List TelemetryRecord :=
  [{ latitude := .string "12.9716", longitude := .string "77.5946", speed := .string "40",
     timestamp := 1717236000000 },
   { latitude := .string "13.0827", longitude := .string "80.2707", speed := .string "0",
     timestamp := 1717243200000 }]

/-- Driver 5 is logged in and the backend returns `data`. -/
def sampleEnv (data : List TelemetryRecord) : Env :=
  { parse := FleetMap.sampleParseFloat, storedUser := some (.ok (some 5)),
    response := fun _ => some data }

end DriverTelemetry

/-! ## The validation of a booking interval, as the design states it -/

namespace VehicleBooking

/-- The outcome of validating a proposed interval. -/
inductive Validation where
  | passed
  | invalidInterval
  | pastStartDate
  deriving DecidableEq, Repr

/-- The validation in the words of the design (section 4.1, Errors): `InvalidInterval` if
`startDate >= endDate`; `PastStartDate` if `startDate < now`; the interval error is
listed first. -/
def specValidation (startDate endDate now : Int) : Validation :=
  if startDate ≥ endDate then .invalidInterval
  else if startDate < now then .pastStartDate
  else .passed

end VehicleBooking

/-! ## Cancelling through the backend -/

namespace BookingLifecycleManager

/-- Modelled from the spec: the name of a status as the booking records sent to the
pages carry it, the enum of section 3 written as the strings the pages compare with;
the backend serialising the records is missing from the sources. -/
def Status.name : Status → String
  | .pending => "pending"
  | .confirmed => "confirmed"
  | .active => "active"
  | .completed => "completed"
  | .cancelled => "cancelled"

/-- Modelled from the spec: the endpoint behind `bookingsAPI.cancel`, missing from the
sources. It runs `transition` to `cancelled` on the store; a performed transition is
answered with success, and an error is propagated to the caller as a failed request
that carries a reason string (section 7), `reason` giving the wording. -/
def cancelEndpoint (store : List Booking) (actor : String) (reason : BookingError → String)
    (bookingId : Nat) : ApiOutcome × List Booking :=
  match transition store bookingId .cancelled actor with
  | (.ok _, after) =>
    (.resolved { success := true, available := false, message := none }, after)
  | (.error err, after) => (.rejected (some (reason err)), after)

/-- A wording of the errors for the examples. -/
def sampleReason : BookingError → String
  | .invalidTransition => "Booking cannot be cancelled in its current status"
  | .bookingNotFound => "Booking not found"
  | _ => "Request failed"

/-- A store with one booking, numbered 7, in the given status. -/
def storeWithBooking (status : Status) : List Booking :=
  [{ id := 7, userId := 42, vehicleId := 3, startDate := june1 10, endDate := june1 12,
     status := status }]

end BookingLifecycleManager

namespace MyBookings

/-- The environment of `handleCancelBooking` when the cancel request is answered by the
backend over `store`. -/
def backendEnv (store : List BookingLifecycleManager.Booking) (actor : String)
    (reason : BookingLifecycleManager.BookingError → String) (confirmAnswer : Bool) : Env :=
  { confirmAnswer := confirmAnswer,
    cancelResponse := fun bookingId =>
      (BookingLifecycleManager.cancelEndpoint store actor reason bookingId).1 }

end MyBookings

/-! ## `VehicleBooking.js` on top of `api.js`: the availability request in the browser -/

namespace VehicleBooking

/-- How the availability request ends in the HTTP layer of `api.js`: resolved with the
response data, or rejected with the error object that the response interceptor
receives. -/
inductive HttpOutcome where
  | resolved (data : ResponseData)
  | rejected (error : Api.AxiosError)
  deriving DecidableEq, Repr

namespace HttpOutcome

/-- What the awaiting handler observes: the interceptor passes a response on and
rejects with the same error, of which the handler reads `response?.data?.message`. -/
def observed : HttpOutcome → ApiOutcome
  | .resolved data => .resolved data
  | .rejected error => .rejected (error.response.bind (fun r => r.message))

/-- The browser after the response interceptor (api.js lines 27-37) has handled the
answer: a response leaves it alone, an error goes through the rejection handler. -/
def intercept (browser : Api.Browser) : HttpOutcome → Api.Browser
  | .resolved _ => browser
  | .rejected error => (Api.responseErrorInterceptor error browser).1

end HttpOutcome

/-- `checkAvailability` run in the browser: the effects of the handler, the awaited
request being answered by `http`, and the browser after the interceptor has handled the
answer of every request of the run. -/
def checkAvailabilityInBrowser (env : Env) (http : AvailabilityRequest → HttpOutcome)
    (st : State) (browser : Api.Browser) : List Effect × Api.Browser :=
  let run := checkAvailability
    { env with checkAvailabilityResponse := fun req => (http req).observed } st
  (run, run.foldl
    (fun b eff =>
      match eff with
      | .bookingsAPI_checkAvailability req => (http req).intercept b
      | _ => b) browser)

/-- A backend that answers every availability request with status 401. -/
def unauthorized : AvailabilityRequest → HttpOutcome :=
  fun _ => .rejected { response := some { status := 401, message := some "Unauthorized" } }

/-- The browser of a logged-in customer on the booking page. -/
def sampleBrowser : Api.Browser :=
  { localStorage := [("token", "abc"), ("user", "asha")], locationHref := "/book-vehicle" }

end VehicleBooking

/-! ## Theorems -/

namespace VehicleBooking

/-- C1: for non-empty, parseable dates with `startDate >= endDate` (equality included),
`checkAvailability` performs exactly one step, setting the message
"End date must be after start date"; the message left on the page is that one, so the
vehicle is not reported as available. -/
theorem checkAvailability_invalid_interval (env : Env) (st : State) (a b : Int)
    (hs : st.bookingData.startDate ≠ "") (he : st.bookingData.endDate ≠ "")
    (hpa : env.parse st.bookingData.startDate = some a)
    (hpb : env.parse st.bookingData.endDate = some b)
    (hge : b ≤ a) :
    checkAvailability env st
        = [.setAvailabilityMessage "⚠️ End date must be after start date"]
      ∧ (applyEffects st (checkAvailability env st)).availabilityMessage
        = "⚠️ End date must be after start date" := by
  have h : checkAvailability env st
      = [.setAvailabilityMessage "⚠️ End date must be after start date"] := by
    simp [checkAvailability, hs, he, newDate, hpa, hpb, JSDate.ge, hge]
  refine ⟨h, ?_⟩
  rw [h]
  rfl

/-- Witness of C1 with equal dates: start and end both 2024-06-01T10:00. -/
theorem checkAvailability_invalid_interval_witness :
    checkAvailability (sampleEnv 0) (sampleState "2024-06-01T10:00" "2024-06-01T10:00")
        = [.setAvailabilityMessage "⚠️ End date must be after start date"]
      ∧ (applyEffects (sampleState "2024-06-01T10:00" "2024-06-01T10:00")
          (checkAvailability (sampleEnv 0)
            (sampleState "2024-06-01T10:00" "2024-06-01T10:00"))).availabilityMessage
        = "⚠️ End date must be after start date" :=
  checkAvailability_invalid_interval (sampleEnv 0)
    (sampleState "2024-06-01T10:00" "2024-06-01T10:00") 1717236000000 1717236000000
    (by decide) (by decide) (by decide) (by decide) (by decide)

/-- C2: for non-empty, parseable dates with `startDate < endDate`, `checkAvailability`
stops with the message "Start date cannot be in the past" exactly when the start is
strictly earlier than the clock; from `startDate = now` on the validation is passed:
the in-progress flag is raised and, with a vehicle selected, the availability request
for the two dates is sent. -/
theorem checkAvailability_past_start_iff (env : Env) (st : State) (a b : Int)
    (hs : st.bookingData.startDate ≠ "") (he : st.bookingData.endDate ≠ "")
    (hpa : env.parse st.bookingData.startDate = some a)
    (hpb : env.parse st.bookingData.endDate = some b)
    (hlt : a < b) :
    (checkAvailability env st
        = [.setAvailabilityMessage "⚠️ Start date cannot be in the past"] ↔ a < env.now)
      ∧ (env.now ≤ a →
          (∃ rest, checkAvailability env st
            = .setCheckingAvailability true :: .setAvailabilityMessage "" :: rest)
          ∧ ∀ v, st.selectedVehicle = some v →
              Effect.bookingsAPI_checkAvailability
                { vehicleId := v.id, startDate := a, endDate := b }
                ∈ checkAvailability env st) := by
  have hnge : ¬ b ≤ a := not_le.mpr hlt
  constructor
  · by_cases hnow : a < env.now
    · simp [checkAvailability, hs, he, newDate, hpa, hpb, JSDate.ge, JSDate.lt, hnge, hnow]
    · simp [checkAvailability, hs, he, newDate, hpa, hpb, JSDate.ge, JSDate.lt, hnge, hnow]
  · intro hnow
    have hnlt : ¬ a < env.now := not_lt.mpr hnow
    constructor
    · simp only [checkAvailability, hs, he, newDate, hpa, hpb, JSDate.ge, JSDate.lt, hnge,
        hnlt, or_self, if_false, decide_False, Bool.false_eq_true, List.cons_append,
        List.nil_append]
      exact ⟨_, rfl⟩
    · intro v hv
      simp only [checkAvailability, hs, he, newDate, hpa, hpb, JSDate.ge, JSDate.lt, hnge,
        hnlt, or_self, if_false, decide_False, Bool.false_eq_true, checkAvailabilityTry,
        hv, JSDate.toISOString]
      cases hr : env.checkAvailabilityResponse
          { vehicleId := v.id, startDate := a, endDate := b } with
      | rejected m => simp
      | resolved data => by_cases hd : (data.success && data.available) = true <;> simp [hd]

/-- Witness of C2 with the start equal to the clock: 10:00 to 12:00 at 10:00. -/
theorem checkAvailability_past_start_iff_witness :
    (checkAvailability (sampleEnv 1717236000000)
          (sampleState "2024-06-01T10:00" "2024-06-01T12:00")
        = [.setAvailabilityMessage "⚠️ Start date cannot be in the past"]
        ↔ (1717236000000 : Int) < (sampleEnv 1717236000000).now)
      ∧ ((sampleEnv 1717236000000).now ≤ 1717236000000 →
          (∃ rest, checkAvailability (sampleEnv 1717236000000)
              (sampleState "2024-06-01T10:00" "2024-06-01T12:00")
            = .setCheckingAvailability true :: .setAvailabilityMessage "" :: rest)
          ∧ ∀ v, (sampleState "2024-06-01T10:00" "2024-06-01T12:00").selectedVehicle
              = some v →
              Effect.bookingsAPI_checkAvailability
                { vehicleId := v.id, startDate := 1717236000000,
                  endDate := 1717243200000 }
                ∈ checkAvailability (sampleEnv 1717236000000)
                    (sampleState "2024-06-01T10:00" "2024-06-01T12:00")) :=
  checkAvailability_past_start_iff (sampleEnv 1717236000000)
    (sampleState "2024-06-01T10:00" "2024-06-01T12:00") 1717236000000 1717243200000
    (by decide) (by decide) (by decide) (by decide) (by decide)

/-- C3: a submission with a selected vehicle and a logged-in user whose parsed dates
satisfy `startDate >= endDate` stops right after `preventDefault` with the alert
"End date must be after start date". -/
theorem handleSubmit_invalid_interval (env : Env) (st : State) (v : Vehicle) (u : User)
    (a b : Int)
    (hv : st.selectedVehicle = some v) (hu : env.currentUser = some u)
    (hsa : newDate env.parse st.bookingData.startDate = some a)
    (hsb : newDate env.parse st.bookingData.endDate = some b)
    (hge : b ≤ a) :
    handleSubmit env st = [.preventDefault, .alert "End date must be after start date"] := by
  simp [handleSubmit, hv, hu, hsa, hsb, JSDate.ge, hge]

/-- Witness of C3: a booking from 12:00 back to 10:00. -/
theorem handleSubmit_invalid_interval_witness :
    handleSubmit (sampleEnv 0) (sampleState "2024-06-01T12:00" "2024-06-01T10:00")
      = [.preventDefault, .alert "End date must be after start date"] :=
  handleSubmit_invalid_interval (sampleEnv 0)
    (sampleState "2024-06-01T12:00" "2024-06-01T10:00") sampleVehicle sampleUser
    1717243200000 1717236000000 rfl rfl (by decide) (by decide) (by decide)

/-- C4: a submission with a selected vehicle and a logged-in user whose start is before
the end but strictly earlier than the clock stops right after `preventDefault` with the
alert "Start date cannot be in the past". -/
theorem handleSubmit_past_start (env : Env) (st : State) (v : Vehicle) (u : User)
    (a b : Int)
    (hv : st.selectedVehicle = some v) (hu : env.currentUser = some u)
    (hsa : newDate env.parse st.bookingData.startDate = some a)
    (hsb : newDate env.parse st.bookingData.endDate = some b)
    (hlt : a < b) (hpast : a < env.now) :
    handleSubmit env st = [.preventDefault, .alert "Start date cannot be in the past"] := by
  have hnge : ¬ b ≤ a := not_le.mpr hlt
  simp [handleSubmit, hv, hu, hsa, hsb, JSDate.ge, JSDate.lt, hnge, hpast]

/-- Witness of C4, the example of the spec: the clock shows 11:00 and the booking
starts at 10:00, one hour in the past. -/
theorem handleSubmit_past_start_witness :
    handleSubmit (sampleEnv (1717236000000 + 3600000))
        (sampleState "2024-06-01T10:00" "2024-06-01T12:00")
      = [.preventDefault, .alert "Start date cannot be in the past"] :=
  handleSubmit_past_start (sampleEnv (1717236000000 + 3600000))
    (sampleState "2024-06-01T10:00" "2024-06-01T12:00") sampleVehicle sampleUser
    1717236000000 1717243200000 rfl rfl (by decide) (by decide) (by decide) (by decide)

/-- C5: when the date validation fails (the parsed start is not before the parsed
end, or it is strictly earlier than the clock), neither `checkAvailability` nor
`handleSubmit` reaches the backend: no run contains a call of
`bookingsAPI.checkAvailability` or of `bookingsAPI.create`. -/
theorem validation_failure_no_store_access (env : Env) (st : State) (a : Int)
    (hsa : newDate env.parse st.bookingData.startDate = some a)
    (hfail : (∃ b, newDate env.parse st.bookingData.endDate = some b ∧ b ≤ a)
      ∨ a < env.now) :
    (∀ eff ∈ checkAvailability env st,
        (∀ req, eff ≠ .bookingsAPI_checkAvailability req)
          ∧ ∀ booking, eff ≠ .bookingsAPI_create booking)
      ∧ (∀ eff ∈ handleSubmit env st,
        (∀ req, eff ≠ .bookingsAPI_checkAvailability req)
          ∧ ∀ booking, eff ≠ .bookingsAPI_create booking) := by
  have hcond : JSDate.ge (newDate env.parse st.bookingData.startDate)
        (newDate env.parse st.bookingData.endDate) = true
      ∨ JSDate.lt (newDate env.parse st.bookingData.startDate) (some env.now) = true := by
    rcases hfail with ⟨b, hb, hle⟩ | hpast
    · left
      simp [hsa, hb, JSDate.ge, hle]
    · right
      simp [hsa, JSDate.lt, hpast]
  constructor
  · intro eff hmem
    have hcases : ∃ msg, checkAvailability env st = [.setAvailabilityMessage msg] := by
      by_cases h1 : st.bookingData.startDate = "" ∨ st.bookingData.endDate = ""
      · exact ⟨"⚠️ Please select start and end dates", by simp [checkAvailability, h1]⟩
      · by_cases h2 : JSDate.ge (newDate env.parse st.bookingData.startDate)
            (newDate env.parse st.bookingData.endDate) = true
        · exact ⟨"⚠️ End date must be after start date",
            by simp [checkAvailability, h1, h2]⟩
        · have h3 := hcond.resolve_left h2
          exact ⟨"⚠️ Start date cannot be in the past",
            by simp [checkAvailability, h1, h2, h3]⟩
    obtain ⟨msg, hm⟩ := hcases
    rw [hm, List.mem_singleton] at hmem
    subst hmem
    exact ⟨fun _ h => Effect.noConfusion h, fun _ h => Effect.noConfusion h⟩
  · intro eff hmem
    have hcases : ∃ msg rest, handleSubmit env st = .preventDefault :: .alert msg :: rest
        ∧ ∀ e ∈ rest, ∃ path, e = .navigate path := by
      cases hv : st.selectedVehicle with
      | none => exact ⟨"Please select a vehicle", [], by simp [handleSubmit, hv], by simp⟩
      | some v =>
        cases hu : env.currentUser with
        | none =>
          exact ⟨"Please login to book a vehicle", [.navigate "/customer-login"],
            by simp [handleSubmit, hv, hu], by simp⟩
        | some u =>
          by_cases h2 : JSDate.ge (newDate env.parse st.bookingData.startDate)
              (newDate env.parse st.bookingData.endDate) = true
          · exact ⟨"End date must be after start date", [],
              by simp [handleSubmit, hv, hu, h2], by simp⟩
          · have h3 := hcond.resolve_left h2
            exact ⟨"Start date cannot be in the past", [],
              by simp [handleSubmit, hv, hu, h2, h3], by simp⟩
    obtain ⟨msg, rest, hm, hrest⟩ := hcases
    rw [hm] at hmem
    rcases List.mem_cons.mp hmem with h | hmem
    · subst h
      exact ⟨fun _ h => Effect.noConfusion h, fun _ h => Effect.noConfusion h⟩
    · rcases List.mem_cons.mp hmem with h | hmem
      · subst h
        exact ⟨fun _ h => Effect.noConfusion h, fun _ h => Effect.noConfusion h⟩
      · obtain ⟨path, hp⟩ := hrest eff hmem
        subst hp
        exact ⟨fun _ h => Effect.noConfusion h, fun _ h => Effect.noConfusion h⟩

/-- Witness of C5: at 11:00 a booking starting at 10:00 fails the validation of both
handlers, and neither run contains a backend call. -/
theorem validation_failure_no_store_access_witness :
    (∀ eff ∈ checkAvailability (sampleEnv 1717239600000)
          (sampleState "2024-06-01T10:00" "2024-06-01T12:00"),
        (∀ req, eff ≠ .bookingsAPI_checkAvailability req)
          ∧ ∀ booking, eff ≠ .bookingsAPI_create booking)
      ∧ (∀ eff ∈ handleSubmit (sampleEnv 1717239600000)
          (sampleState "2024-06-01T10:00" "2024-06-01T12:00"),
        (∀ req, eff ≠ .bookingsAPI_checkAvailability req)
          ∧ ∀ booking, eff ≠ .bookingsAPI_create booking) :=
  validation_failure_no_store_access (sampleEnv 1717239600000)
    (sampleState "2024-06-01T10:00" "2024-06-01T12:00") 1717236000000
    (by decide) (Or.inr (by decide))

/-- Every payload that `handleSubmit` sends carries the two parsed dates, which passed
both comparisons. -/
theorem handleSubmit_create_dates (env : Env) (st : State) (booking : BookingRequest)
    (hmem : Effect.bookingsAPI_create booking ∈ handleSubmit env st) :
    newDate env.parse st.bookingData.startDate = some booking.startDate
      ∧ newDate env.parse st.bookingData.endDate = some booking.endDate
      ∧ booking.startDate < booking.endDate ∧ env.now ≤ booking.startDate := by
  unfold handleSubmit at hmem
  cases hv : st.selectedVehicle with
  | none => simp [hv] at hmem
  | some v =>
    cases hu : env.currentUser with
    | none => simp [hv, hu] at hmem
    | some u =>
      cases hsa : newDate env.parse st.bookingData.startDate with
      | none => simp [hv, hu, hsa, JSDate.ge, JSDate.lt, handleSubmitTry, JSDate.toISOString,
          JSError.responseMessage] at hmem
      | some a =>
        cases hsb : newDate env.parse st.bookingData.endDate with
        | none =>
          simp only [hv, hu, hsa, hsb, JSDate.ge, JSDate.lt, handleSubmitTry,
            JSDate.toISOString, JSError.responseMessage, Bool.false_eq_true, if_false,
            List.nil_append] at hmem
          split_ifs at hmem <;> simp at hmem
        | some b =>
          by_cases hge : b ≤ a
          · simp [hv, hu, hsa, hsb, JSDate.ge, hge] at hmem
          · by_cases hpast : a < env.now
            · simp [hv, hu, hsa, hsb, JSDate.ge, JSDate.lt, hge, hpast] at hmem
            · simp only [hv, hu, hsa, hsb, JSDate.ge, JSDate.lt, hge, hpast, decide_False,
                Bool.false_eq_true, if_false, handleSubmitTry, JSDate.toISOString] at hmem
              have hb : booking.startDate = a ∧ booking.endDate = b := by
                cases hr : env.createResponse
                    { userId := u.id
                      userName := orElseStr u.name u.username
                      vehicleId := v.id
                      vehicleName := orElseStr v.name v.model
                      vehicleRegistration := v.registrationNumber
                      startDate := a
                      endDate := b
                      purpose := st.bookingData.purpose
                      pickupLocation := st.bookingData.pickupLocation
                      dropoffLocation := st.bookingData.dropoffLocation
                      contactNumber := st.bookingData.contactNumber
                      notes := st.bookingData.notes } with
                | rejected m =>
                  simp [hr] at hmem
                  subst hmem
                  exact ⟨rfl, rfl⟩
                | resolved data =>
                  by_cases hd : data.success = true
                  · simp [hr, hd] at hmem
                    subst hmem
                    exact ⟨rfl, rfl⟩
                  · simp [hr, hd] at hmem
                    subst hmem
                    exact ⟨rfl, rfl⟩
              obtain ⟨h1, h2⟩ := hb
              rw [h1, h2]
              exact ⟨rfl, rfl, not_le.mp hge, not_lt.mp hpast⟩

/-- C6: for every form input, every payload that `handleSubmit` passes to
`bookingsAPI.create` has `startDate < endDate` and a start not earlier than the clock
sampled by the validation; when a date string is empty or does not parse
(`toISOString` throws inside the `try` block) no payload is sent. -/
theorem handleSubmit_payload_valid (env : Env) (st : State) :
    (∀ booking, Effect.bookingsAPI_create booking ∈ handleSubmit env st →
        booking.startDate < booking.endDate ∧ env.now ≤ booking.startDate)
      ∧ ((st.bookingData.startDate = "" ∨ env.parse st.bookingData.startDate = none
            ∨ st.bookingData.endDate = "" ∨ env.parse st.bookingData.endDate = none) →
          ∀ booking, Effect.bookingsAPI_create booking ∉ handleSubmit env st) := by
  constructor
  · intro booking hmem
    exact (handleSubmit_create_dates env st booking hmem).2.2
  · intro hbad booking hmem
    obtain ⟨h1, h2, _⟩ := handleSubmit_create_dates env st booking hmem
    rcases hbad with h | h | h | h
    · simp [newDate, h] at h1
    · simp [newDate, h] at h1
    · simp [newDate, h] at h2
    · simp [newDate, h] at h2

/-- Witness of C6: at 09:00 the submission of a booking from 10:00 to 12:00 sends a
payload, and that payload satisfies both bounds. -/
theorem handleSubmit_payload_valid_witness :
    Effect.bookingsAPI_create
        { userId := 42, userName := some "Asha", vehicleId := 3,
          vehicleName := some "Swift Dzire", vehicleRegistration := some "TN-01-AB-1234",
          startDate := 1717236000000, endDate := 1717243200000,
          purpose := "Airport transfer", pickupLocation := "Chennai Central",
          dropoffLocation := "Chennai Airport", contactNumber := "9876543210", notes := "" }
        ∈ handleSubmit (sampleEnv 1717232400000)
            (sampleState "2024-06-01T10:00" "2024-06-01T12:00")
      ∧ (1717236000000 : Int) < 1717243200000
      ∧ (sampleEnv 1717232400000).now ≤ 1717236000000 :=
  ⟨by decide,
   (handleSubmit_payload_valid (sampleEnv 1717232400000)
      (sampleState "2024-06-01T10:00" "2024-06-01T12:00")).1
      { userId := 42, userName := some "Asha", vehicleId := 3,
        vehicleName := some "Swift Dzire", vehicleRegistration := some "TN-01-AB-1234",
        startDate := 1717236000000, endDate := 1717243200000,
        purpose := "Airport transfer", pickupLocation := "Chennai Central",
        dropoffLocation := "Chennai Airport", contactNumber := "9876543210", notes := "" }
      (by decide)⟩

end VehicleBooking

namespace BookingLifecycleManager

/-- A booking returned by the conflict search is a live booking of the vehicle that
overlaps the requested interval. -/
theorem find_conflict_some (store : List Booking) (vehicleId : Nat) (s e : Int)
    (b : Booking)
    (h : (findLiveBookingsByVehicle store vehicleId).find? (fun x => overlaps x s e)
      = some b) :
    b ∈ store ∧ b.vehicleId = vehicleId ∧ isLive b.status = true
      ∧ b.startDate < e ∧ b.endDate > s := by
  have hov := List.find?_some h
  have hmem := List.mem_of_find?_eq_some h
  simp only [findLiveBookingsByVehicle, List.mem_filter, Bool.and_eq_true, beq_iff_eq]
    at hmem
  simp only [overlaps, Bool.and_eq_true, decide_eq_true_eq] at hov
  exact ⟨hmem.1, hmem.2.1, hmem.2.2, hov.1, hov.2⟩

/-- The live statuses are pending, confirmed and active. -/
theorem isLive_iff (st : Status) :
    isLive st = true ↔ st = .pending ∨ st = .confirmed ∨ st = .active := by
  cases st <;> simp [isLive]

/-- C7: for a valid request on an existing vehicle, `checkAvailability` answers, and it
reports the vehicle unavailable exactly when some stored booking of that vehicle with
status pending, confirmed or active has an interval `[s, e)` with `s < endDate` and
`e > startDate`. With a confirmed booking from 10:00 to 12:00, a request from 11:00 to
13:00 is unavailable and a request from 12:00 to 14:00 is available. -/
theorem checkAvailability_conflict_iff :
    (∀ (vehicleExists : Nat → Bool) (store : List Booking) (now : Int) (vehicleId : Nat)
        (startDate endDate : Int),
        startDate < endDate → now ≤ startDate → vehicleExists vehicleId = true →
        ∃ r, checkAvailability vehicleExists store now vehicleId startDate endDate = .ok r
          ∧ (r.available = false ↔
              ∃ b ∈ store, b.vehicleId = vehicleId
                ∧ (b.status = .pending ∨ b.status = .confirmed ∨ b.status = .active)
                ∧ b.startDate < endDate ∧ b.endDate > startDate))
      ∧ checkAvailability (fun _ => true) exampleStore (june1 9) 3 (june1 11) (june1 13)
          = .ok { available := false,
                  conflict := some { id := 1, userId := 42, vehicleId := 3,
                                     startDate := june1 10, endDate := june1 12,
                                     status := .confirmed } }
      ∧ checkAvailability (fun _ => true) exampleStore (june1 9) 3 (june1 12) (june1 14)
          = .ok { available := true, conflict := none } := by
  refine ⟨?_, by rfl, by rfl⟩
  intro vehicleExists store now vehicleId s e hlt hnow hex
  have h1 : ¬ s ≥ e := not_le.mpr hlt
  have h2 : ¬ s < now := not_lt.mpr hnow
  cases hfind : (findLiveBookingsByVehicle store vehicleId).find?
      (fun x => overlaps x s e) with
  | some b =>
    refine ⟨{ available := false, conflict := some b }, ?_, ?_⟩
    · simp [checkAvailability, h1, h2, hex, hfind]
    · obtain ⟨hm, hv, hl, hs, he⟩ := find_conflict_some store vehicleId s e b hfind
      constructor
      · intro _
        exact ⟨b, hm, hv, (isLive_iff b.status).mp hl, hs, he⟩
      · intro _
        rfl
  | none =>
    refine ⟨{ available := true, conflict := none }, ?_, ?_⟩
    · simp [checkAvailability, h1, h2, hex, hfind]
    · constructor
      · intro h
        exact absurd h (by decide)
      · rintro ⟨b, hm, hv, hl, hs, he⟩
        exfalso
        rw [List.find?_eq_none] at hfind
        have hb : b ∈ findLiveBookingsByVehicle store vehicleId := by
          simp only [findLiveBookingsByVehicle, List.mem_filter, Bool.and_eq_true,
            beq_iff_eq]
          exact ⟨hm, hv, (isLive_iff b.status).mpr hl⟩
        have := hfind b hb
        simp [overlaps, hs, he] at this

/-- Witness of C7: the general statement at the example store, for the request from
11:00 to 13:00 checked at 09:00. -/
theorem checkAvailability_conflict_iff_witness :
    ∃ r, checkAvailability (fun _ => true) exampleStore (june1 9) 3 (june1 11) (june1 13)
        = .ok r
      ∧ (r.available = false ↔
          ∃ b ∈ exampleStore, b.vehicleId = 3
            ∧ (b.status = .pending ∨ b.status = .confirmed ∨ b.status = .active)
            ∧ b.startDate < june1 13 ∧ b.endDate > june1 11) :=
  checkAvailability_conflict_iff.1 (fun _ => true) exampleStore (june1 9) 3 (june1 11)
    (june1 13) (by decide) (by decide) rfl

/-- C8: a transition of a stored booking that is not one of pending to confirmed,
confirmed to active, active to completed, pending to cancelled or confirmed to
cancelled fails with `invalidTransition`; the store, and with it the status of the
booking, is unchanged. -/
theorem transition_not_in_table (store : List Booking) (bookingId : Nat)
    (targetStatus : Status) (actor : String) (b : Booking)
    (hfind : store.find? (fun x => x.id == bookingId) = some b)
    (hnot : ¬ ((b.status = .pending ∧ targetStatus = .confirmed)
      ∨ (b.status = .confirmed ∧ targetStatus = .active)
      ∨ (b.status = .active ∧ targetStatus = .completed)
      ∨ (b.status = .pending ∧ targetStatus = .cancelled)
      ∨ (b.status = .confirmed ∧ targetStatus = .cancelled))) :
    transition store bookingId targetStatus actor = (.error .invalidTransition, store)
      ∧ ((transition store bookingId targetStatus actor).2.find?
          (fun x => x.id == bookingId)).map (fun x => x.status) = some b.status := by
  have hall : allowed b.status targetStatus = false := by
    cases hs : b.status <;> cases ht : targetStatus <;> simp_all [allowed]
  have h : transition store bookingId targetStatus actor
      = (.error .invalidTransition, store) := by
    simp [transition, hfind, hall]
  refine ⟨h, ?_⟩
  rw [h]
  simp [hfind]

/-- Witness of C8, the example of the spec: moving the pending booking 5 directly to
active fails and leaves it pending. -/
theorem transition_not_in_table_witness :
    transition [{ id := 5, userId := 42, vehicleId := 3, startDate := june1 10,
                  endDate := june1 12, status := .pending }] 5 .active "manager"
        = (.error .invalidTransition,
           [{ id := 5, userId := 42, vehicleId := 3, startDate := june1 10,
              endDate := june1 12, status := .pending }])
      ∧ ((transition [{ id := 5, userId := 42, vehicleId := 3, startDate := june1 10,
                        endDate := june1 12, status := .pending }] 5 .active "manager").2.find?
          (fun x => x.id == 5)).map (fun x => x.status) = some Status.pending :=
  transition_not_in_table
    [{ id := 5, userId := 42, vehicleId := 3, startDate := june1 10,
       endDate := june1 12, status := .pending }] 5 .active "manager"
    { id := 5, userId := 42, vehicleId := 3, startDate := june1 10,
      endDate := june1 12, status := .pending }
    rfl (by decide)

end BookingLifecycleManager

namespace MyBookings

/-- C9: for a stored booking whose status is active or completed, cancelling through
`handleCancelBooking` fails for every caller and every answer to the confirmation
dialog: the backend leaves the store unchanged; the run is the dialog alone when the
user declines and otherwise the dialog, the request, the logged error and the alert of
the failure, never the success branch; and the page renders no cancel button for the
booking. -/
theorem handleCancelBooking_active_completed_fails
    (store : List BookingLifecycleManager.Booking) (actor : String)
    (reason : BookingLifecycleManager.BookingError → String) (confirmAnswer : Bool)
    (stored : BookingLifecycleManager.Booking) (booking : Booking)
    (hfind : store.find? (fun x => x.id == booking.id) = some stored)
    (hrecord : booking.status = stored.status.name)
    (hstatus : stored.status = .active ∨ stored.status = .completed) :
    (BookingLifecycleManager.cancelEndpoint store actor reason booking.id).2 = store
      ∧ handleCancelBooking (backendEnv store actor reason confirmAnswer) booking.id
        = (if confirmAnswer then
            [.windowConfirm "Are you sure you want to cancel this booking?",
             .bookingsAPI_cancel booking.id, .consoleError "Error cancelling booking:",
             .alert (orDefault (some (reason .invalidTransition))
               "Failed to cancel booking")]
          else [.windowConfirm "Are you sure you want to cancel this booking?"])
      ∧ Effect.fetchBookings
          ∉ handleCancelBooking (backendEnv store actor reason confirmAnswer) booking.id
      ∧ cancelButtonOnClick (backendEnv store actor reason confirmAnswer) booking = none := by
  have hall : BookingLifecycleManager.allowed stored.status .cancelled = false := by
    rcases hstatus with h | h <;> simp [h, BookingLifecycleManager.allowed]
  have htrans : BookingLifecycleManager.transition store booking.id .cancelled actor
      = (.error .invalidTransition, store) := by
    simp [BookingLifecycleManager.transition, hfind, hall]
  have hend : BookingLifecycleManager.cancelEndpoint store actor reason booking.id
      = (.rejected (some (reason .invalidTransition)), store) := by
    simp [BookingLifecycleManager.cancelEndpoint, htrans]
  have hrun : handleCancelBooking (backendEnv store actor reason confirmAnswer) booking.id
      = (if confirmAnswer then
          [.windowConfirm "Are you sure you want to cancel this booking?",
           .bookingsAPI_cancel booking.id, .consoleError "Error cancelling booking:",
           .alert (orDefault (some (reason .invalidTransition))
             "Failed to cancel booking")]
        else [.windowConfirm "Are you sure you want to cancel this booking?"]) := by
    cases confirmAnswer <;> simp [handleCancelBooking, backendEnv, hend]
  refine ⟨by rw [hend], hrun, ?_, ?_⟩
  · rw [hrun]
    cases confirmAnswer <;> simp
  · rcases hstatus with h | h <;>
      simp [cancelButtonOnClick, canCancelBooking, hrecord, h,
        BookingLifecycleManager.Status.name]

/-- Witness of C9: the customer confirms the cancellation of the active booking 7; the
backend refuses and the page shows the reason. -/
theorem handleCancelBooking_active_completed_fails_witness :
    (BookingLifecycleManager.cancelEndpoint
        (BookingLifecycleManager.storeWithBooking .active) "customer"
        BookingLifecycleManager.sampleReason (sampleBooking "active").id).2
        = BookingLifecycleManager.storeWithBooking .active
      ∧ handleCancelBooking
          (backendEnv (BookingLifecycleManager.storeWithBooking .active) "customer"
            BookingLifecycleManager.sampleReason true) (sampleBooking "active").id
        = (if true = true then
            [.windowConfirm "Are you sure you want to cancel this booking?",
             .bookingsAPI_cancel (sampleBooking "active").id,
             .consoleError "Error cancelling booking:",
             .alert (orDefault
               (some (BookingLifecycleManager.sampleReason .invalidTransition))
               "Failed to cancel booking")]
          else [.windowConfirm "Are you sure you want to cancel this booking?"])
      ∧ Effect.fetchBookings
          ∉ handleCancelBooking
              (backendEnv (BookingLifecycleManager.storeWithBooking .active) "customer"
                BookingLifecycleManager.sampleReason true) (sampleBooking "active").id
      ∧ cancelButtonOnClick
          (backendEnv (BookingLifecycleManager.storeWithBooking .active) "customer"
            BookingLifecycleManager.sampleReason true) (sampleBooking "active") = none :=
  handleCancelBooking_active_completed_fails
    (BookingLifecycleManager.storeWithBooking .active) "customer"
    BookingLifecycleManager.sampleReason true
    { id := 7, userId := 42, vehicleId := 3, startDate := BookingLifecycleManager.june1 10,
      endDate := BookingLifecycleManager.june1 12, status := .active }
    (sampleBooking "active") rfl rfl (Or.inl rfl)

/-- C10: `canCancelBooking` is true exactly for the statuses pending and confirmed; it
is false for active, completed, cancelled and for every other status string. -/
theorem canCancelBooking_iff (booking : Booking) :
    (canCancelBooking booking = true
        ↔ booking.status = "pending" ∨ booking.status = "confirmed")
      ∧ (booking.status = "active" ∨ booking.status = "completed"
          ∨ booking.status = "cancelled" → canCancelBooking booking = false)
      ∧ (booking.status ≠ "pending" → booking.status ≠ "confirmed" →
          canCancelBooking booking = false) := by
  refine ⟨?_, ?_, ?_⟩
  · simp [canCancelBooking]
  · rintro (h | h | h) <;> simp [canCancelBooking, h]
  · intro h1 h2
    simp [canCancelBooking, h1, h2]

/-- Witness of C10: an unknown status string cannot be cancelled. -/
theorem canCancelBooking_iff_witness :
    canCancelBooking (sampleBooking "archived") = false :=
  (canCancelBooking_iff (sampleBooking "archived")).2.2 (by decide) (by decide)

end MyBookings

namespace RouteAssignment

/-- Counterexample to C11 as stated: the completed booking 9 has no assigned driver, so
its card shows the assign button; with driver `d1` chosen, `confirmAssignment` creates
a route, calls `bookingsAPI.assignDriver` and announces the assignment. -/
theorem confirmAssignment_completed_assigns :
    (sampleBooking "completed").status = "completed"
      ∧ assignButtonShown (sampleBooking "completed") = true
      ∧ confirmAssignment acceptingEnv (sampleState "completed")
        = [.setAssignmentLoading true,
           .routesAPI_create
             { driverId := "d1", driverName := some "Ravi", driverUsername := some "ravi",
               startLocationName := some "Chennai Central",
               endLocationName := some "Chennai Airport", distance := 0,
               estimatedDuration := 0, notes := "Booking: Airport transfer",
               createdByUsername := "manager" },
           .bookingsAPI_assignDriver 9
             { driverId := "d1", driverName := some "Ravi", routeId := some 77 },
           .alert "Driver and route assigned successfully!",
           .setShowAssignModal false, .fetchData, .setAssignmentLoading false] := by
  decide

/-- C11, amended: `confirmAssignment` does not read the status of the selected booking
(replacing the status leaves the run unchanged); with a driver of the list chosen and a
readable stored user it creates a route for the booking, and once that request
resolves with a route it calls `bookingsAPI.assignDriver` for the booking. -/
theorem confirmAssignment_status_blind (env : Env) (st : State) (booking : Booking)
    (hb : st.selectedBooking = some booking) :
    (∀ status, confirmAssignment env
        { st with selectedBooking := some { booking with status := status } }
        = confirmAssignment env st)
      ∧ (∀ driver user, st.selectedDriver ≠ "" →
          st.drivers.find? (fun d => d.id == st.selectedDriver) = some driver →
          env.parsedUser = .ok user →
          ∃ routeData, Effect.routesAPI_create routeData ∈ confirmAssignment env st
            ∧ routeData.driverId = driver.id
            ∧ routeData.startLocationName = booking.pickupLocation
            ∧ routeData.endLocationName = booking.dropoffLocation
            ∧ ∀ routeId, env.createRouteResponse routeData = .resolved (some routeId) →
                Effect.bookingsAPI_assignDriver booking.id
                  { driverId := driver.id
                    driverName := orElseStr driver.name driver.username
                    routeId := routeId } ∈ confirmAssignment env st) := by
  constructor
  · intro status
    simp [confirmAssignment, confirmAssignmentTry, hb]
  · intro driver user hsel hfind huser
    refine ⟨{ driverId := driver.id
              driverName := orElseStr driver.name driver.username
              driverUsername := driver.username
              startLocationName := booking.pickupLocation
              endLocationName := booking.dropoffLocation
              distance := 0
              estimatedDuration := 0
              notes := "Booking: " ++ booking.purpose
              createdByUsername :=
                orDefault (orElseStr user.username user.name) "fleet-manager" },
      ?_, rfl, rfl, rfl, ?_⟩
    · simp only [confirmAssignment, hsel, if_false, confirmAssignmentTry, huser, hfind, hb]
      split <;> try split
      all_goals simp
    · intro routeId hr
      simp only [confirmAssignment, hsel, if_false, confirmAssignmentTry, huser, hfind, hb,
        hr]
      split <;> simp

/-- Witness of the amended C11 at the completed booking 9. -/
theorem confirmAssignment_status_blind_witness :
    (∀ status, confirmAssignment acceptingEnv
        { sampleState "completed" with
          selectedBooking := some { sampleBooking "completed" with status := status } }
        = confirmAssignment acceptingEnv (sampleState "completed"))
      ∧ (∀ driver user, (sampleState "completed").selectedDriver ≠ "" →
          (sampleState "completed").drivers.find?
            (fun d => d.id == (sampleState "completed").selectedDriver) = some driver →
          acceptingEnv.parsedUser = .ok user →
          ∃ routeData, Effect.routesAPI_create routeData
              ∈ confirmAssignment acceptingEnv (sampleState "completed")
            ∧ routeData.driverId = driver.id
            ∧ routeData.startLocationName = (sampleBooking "completed").pickupLocation
            ∧ routeData.endLocationName = (sampleBooking "completed").dropoffLocation
            ∧ ∀ routeId,
                acceptingEnv.createRouteResponse routeData = .resolved (some routeId) →
                Effect.bookingsAPI_assignDriver (sampleBooking "completed").id
                  { driverId := driver.id
                    driverName := orElseStr driver.name driver.username
                    routeId := routeId }
                  ∈ confirmAssignment acceptingEnv (sampleState "completed")) :=
  confirmAssignment_status_blind acceptingEnv (sampleState "completed")
    (sampleBooking "completed") rfl

end RouteAssignment

/-- The default of `m || d` makes the result non-empty. -/
theorem orDefault_ne_empty (m : Option String) (d : String) (hd : d ≠ "") :
    orDefault m d ≠ "" := by
  unfold orDefault
  split
  · split_ifs with h
    · exact hd
    · exact h
  · exact hd

/-- A message that starts with the cross mark is not empty. -/
theorem cross_append_ne_empty (s : String) : "❌ " ++ s ≠ "" := by
  intro h
  have := congrArg String.length h
  simp at this
  exact absurd this.1 (by decide)

namespace VehicleBooking

/-- The shape of every run of `checkAvailability`: either a single non-empty message,
or the raised flag, the cleared message, at most one request, a final non-empty message
and the lowered flag. -/
theorem checkAvailability_shape (env : Env) (st : State) :
    ∃ msg, msg ≠ "" ∧
      (checkAvailability env st = [.setAvailabilityMessage msg]
        ∨ ∃ mid, checkAvailability env st
            = .setCheckingAvailability true :: .setAvailabilityMessage "" ::
                (mid ++ [.setAvailabilityMessage msg, .setCheckingAvailability false])
          ∧ ((∃ label, mid = [.consoleError label])
            ∨ (∃ req, mid = [.bookingsAPI_checkAvailability req])
            ∨ ∃ req label, mid = [.bookingsAPI_checkAvailability req,
                .consoleError label])) := by
  by_cases h1 : st.bookingData.startDate = "" ∨ st.bookingData.endDate = ""
  · exact ⟨"⚠️ Please select start and end dates", by decide,
      Or.inl (by simp [checkAvailability, h1])⟩
  by_cases h2 : JSDate.ge (newDate env.parse st.bookingData.startDate)
      (newDate env.parse st.bookingData.endDate) = true
  · exact ⟨"⚠️ End date must be after start date", by decide,
      Or.inl (by simp [checkAvailability, h1, h2])⟩
  by_cases h3 : JSDate.lt (newDate env.parse st.bookingData.startDate)
      (some env.now) = true
  · exact ⟨"⚠️ Start date cannot be in the past", by decide,
      Or.inl (by simp [checkAvailability, h1, h2, h3])⟩
  have hdef : "Error checking availability. Please try again." ≠ "" := by decide
  have hrun : checkAvailability env st
      = [.setCheckingAvailability true, .setAvailabilityMessage ""]
        ++ (checkAvailabilityTry env st (newDate env.parse st.bookingData.startDate)
              (newDate env.parse st.bookingData.endDate)).1
        ++ (match (checkAvailabilityTry env st (newDate env.parse st.bookingData.startDate)
              (newDate env.parse st.bookingData.endDate)).2 with
            | none => []
            | some err =>
              [.consoleError "Error checking availability:",
               .setAvailabilityMessage
                 ("❌ " ++ orDefault err.responseMessage
                   "Error checking availability. Please try again.")])
        ++ [.setCheckingAvailability false] := by
    simp [checkAvailability, h1, h2, h3]
  rw [hrun]
  cases hv : st.selectedVehicle with
  | none =>
    exact ⟨"❌ " ++ orDefault (JSError.typeError).responseMessage
        "Error checking availability. Please try again.", cross_append_ne_empty _,
      Or.inr ⟨[.consoleError "Error checking availability:"],
        by simp [checkAvailabilityTry, hv], Or.inl ⟨_, rfl⟩⟩⟩
  | some v =>
    cases hsa : newDate env.parse st.bookingData.startDate with
    | none =>
      exact ⟨"❌ " ++ orDefault (JSError.rangeError).responseMessage
        "Error checking availability. Please try again.", cross_append_ne_empty _,
        Or.inr ⟨[.consoleError "Error checking availability:"],
          by simp [checkAvailabilityTry, hv, JSDate.toISOString], Or.inl ⟨_, rfl⟩⟩⟩
    | some a =>
      cases hsb : newDate env.parse st.bookingData.endDate with
      | none =>
        exact ⟨"❌ " ++ orDefault (JSError.rangeError).responseMessage
        "Error checking availability. Please try again.", cross_append_ne_empty _,
          Or.inr ⟨[.consoleError "Error checking availability:"],
            by simp [checkAvailabilityTry, hv, JSDate.toISOString], Or.inl ⟨_, rfl⟩⟩⟩
      | some b =>
        cases hr : env.checkAvailabilityResponse
            { vehicleId := v.id, startDate := a, endDate := b } with
        | rejected m =>
          exact ⟨"❌ " ++ orDefault (JSError.requestError m).responseMessage
        "Error checking availability. Please try again.", cross_append_ne_empty _,
            Or.inr ⟨[.bookingsAPI_checkAvailability
                { vehicleId := v.id, startDate := a, endDate := b },
              .consoleError "Error checking availability:"],
              by simp [checkAvailabilityTry, hv, JSDate.toISOString, hr],
              Or.inr (Or.inr ⟨_, _, rfl⟩)⟩⟩
        | resolved data =>
          by_cases hd : (data.success && data.available) = true
          · exact ⟨orDefault data.message "✓ Vehicle is available for selected dates",
              orDefault_ne_empty data.message
                "✓ Vehicle is available for selected dates" (by decide),
              Or.inr ⟨[.bookingsAPI_checkAvailability
                  { vehicleId := v.id, startDate := a, endDate := b }],
                by simp [checkAvailabilityTry, hv, JSDate.toISOString, hr, hd],
                Or.inr (Or.inl ⟨_, rfl⟩)⟩⟩
          · exact ⟨orDefault data.message "✗ Vehicle is not available for selected dates",
              orDefault_ne_empty data.message
                "✗ Vehicle is not available for selected dates" (by decide),
              Or.inr ⟨[.bookingsAPI_checkAvailability
                  { vehicleId := v.id, startDate := a, endDate := b }],
                by simp [checkAvailabilityTry, hv, JSDate.toISOString, hr, hd],
                Or.inr (Or.inl ⟨_, rfl⟩)⟩⟩

/-- No effect touches the form, the selected vehicle, the vehicle list, the loading
flag or the visibility of the form. -/
theorem applyEffects_frame (effs : List Effect) (st : State) :
    (applyEffects st effs).bookingData = st.bookingData
      ∧ (applyEffects st effs).selectedVehicle = st.selectedVehicle
      ∧ (applyEffects st effs).vehicles = st.vehicles
      ∧ (applyEffects st effs).loading = st.loading
      ∧ (applyEffects st effs).showBookingForm = st.showBookingForm := by
  induction effs generalizing st with
  | nil => exact ⟨rfl, rfl, rfl, rfl, rfl⟩
  | cons e rest ih =>
    have h := ih (applyEffect st e)
    have hstep : applyEffects st (e :: rest) = applyEffects (applyEffect st e) rest := rfl
    rw [hstep]
    cases e <;> exact h

/-- C13: after a successful validation `handleSubmit` passes exactly one payload to
`bookingsAPI.create`; its user id, vehicle id, dates, purpose, locations, contact
number and notes are those of the current user, the selected vehicle and the form, and
the object has no property `id`, `status`, `createdAt` or `updatedAt`. -/
theorem handleSubmit_payload_fields (env : Env) (st : State) (v : Vehicle) (u : User)
    (a b : Int)
    (hv : st.selectedVehicle = some v) (hu : env.currentUser = some u)
    (hsa : newDate env.parse st.bookingData.startDate = some a)
    (hsb : newDate env.parse st.bookingData.endDate = some b)
    (hlt : a < b) (hnow : env.now ≤ a) :
    (∃ booking, Effect.bookingsAPI_create booking ∈ handleSubmit env st
        ∧ (∀ other, Effect.bookingsAPI_create other ∈ handleSubmit env st → other = booking)
        ∧ booking.userId = u.id ∧ booking.vehicleId = v.id
        ∧ booking.startDate = a ∧ booking.endDate = b
        ∧ booking.purpose = st.bookingData.purpose
        ∧ booking.pickupLocation = st.bookingData.pickupLocation
        ∧ booking.dropoffLocation = st.bookingData.dropoffLocation
        ∧ booking.contactNumber = st.bookingData.contactNumber
        ∧ booking.notes = st.bookingData.notes)
      ∧ "id" ∉ BookingRequest.keys ∧ "status" ∉ BookingRequest.keys
      ∧ "createdAt" ∉ BookingRequest.keys ∧ "updatedAt" ∉ BookingRequest.keys := by
  have hnge : ¬ b ≤ a := not_le.mpr hlt
  have hnlt : ¬ a < env.now := not_lt.mpr hnow
  refine ⟨⟨{ userId := u.id
             userName := orElseStr u.name u.username
             vehicleId := v.id
             vehicleName := orElseStr v.name v.model
             vehicleRegistration := v.registrationNumber
             startDate := a
             endDate := b
             purpose := st.bookingData.purpose
             pickupLocation := st.bookingData.pickupLocation
             dropoffLocation := st.bookingData.dropoffLocation
             contactNumber := st.bookingData.contactNumber
             notes := st.bookingData.notes }, ?_, ?_,
      rfl, rfl, rfl, rfl, rfl, rfl, rfl, rfl, rfl⟩,
    by decide, by decide, by decide, by decide⟩
  · simp only [handleSubmit, hv, hu, hsa, hsb, JSDate.ge, JSDate.lt, hnge, hnlt,
      decide_False, Bool.false_eq_true, if_false, handleSubmitTry, JSDate.toISOString]
    split
    · simp
    · split <;> simp
  · intro other hmem
    simp only [handleSubmit, hv, hu, hsa, hsb, JSDate.ge, JSDate.lt, hnge, hnlt,
      decide_False, Bool.false_eq_true, if_false, handleSubmitTry, JSDate.toISOString]
      at hmem
    split at hmem
    · simpa using hmem
    · split at hmem <;> simpa using hmem

/-- Witness of C13: at 09:00 the customer 42 books vehicle 3 from 10:00 to 12:00. -/
theorem handleSubmit_payload_fields_witness :
    (∃ booking, Effect.bookingsAPI_create booking
          ∈ handleSubmit (sampleEnv 1717232400000)
              (sampleState "2024-06-01T10:00" "2024-06-01T12:00")
        ∧ (∀ other, Effect.bookingsAPI_create other
              ∈ handleSubmit (sampleEnv 1717232400000)
                  (sampleState "2024-06-01T10:00" "2024-06-01T12:00") → other = booking)
        ∧ booking.userId = sampleUser.id ∧ booking.vehicleId = sampleVehicle.id
        ∧ booking.startDate = 1717236000000 ∧ booking.endDate = 1717243200000
        ∧ booking.purpose
            = (sampleState "2024-06-01T10:00" "2024-06-01T12:00").bookingData.purpose
        ∧ booking.pickupLocation
            = (sampleState "2024-06-01T10:00" "2024-06-01T12:00").bookingData.pickupLocation
        ∧ booking.dropoffLocation
            = (sampleState "2024-06-01T10:00" "2024-06-01T12:00").bookingData.dropoffLocation
        ∧ booking.contactNumber
            = (sampleState "2024-06-01T10:00" "2024-06-01T12:00").bookingData.contactNumber
        ∧ booking.notes
            = (sampleState "2024-06-01T10:00" "2024-06-01T12:00").bookingData.notes)
      ∧ "id" ∉ BookingRequest.keys ∧ "status" ∉ BookingRequest.keys
      ∧ "createdAt" ∉ BookingRequest.keys ∧ "updatedAt" ∉ BookingRequest.keys :=
  handleSubmit_payload_fields (sampleEnv 1717232400000)
    (sampleState "2024-06-01T10:00" "2024-06-01T12:00") sampleVehicle sampleUser
    1717236000000 1717243200000 rfl rfl (by decide) (by decide) (by decide) (by decide)

/-- On the component `checkAvailability` is read-only. The form data, the selected
vehicle and the vehicle list (and the loading flag and the visibility of the form) are
the same after the run; the run contains at most one request, which can only be the
availability query; and the in-progress flag, false before the run, is false after
it. -/
theorem checkAvailability_component_frame (env : Env) (st : State) :
    (applyEffects st (checkAvailability env st)).bookingData = st.bookingData
      ∧ (applyEffects st (checkAvailability env st)).selectedVehicle = st.selectedVehicle
      ∧ (applyEffects st (checkAvailability env st)).vehicles = st.vehicles
      ∧ (applyEffects st (checkAvailability env st)).loading = st.loading
      ∧ (applyEffects st (checkAvailability env st)).showBookingForm = st.showBookingForm
      ∧ ((checkAvailability env st).filter Effect.isRequest).length ≤ 1
      ∧ (∀ eff ∈ checkAvailability env st, eff.isRequest = true →
          ∃ req, eff = .bookingsAPI_checkAvailability req)
      ∧ (st.checkingAvailability = false →
          (applyEffects st (checkAvailability env st)).checkingAvailability = false)
      ∧ ((∃ value, Effect.setCheckingAvailability value ∈ checkAvailability env st) →
          (applyEffects st (checkAvailability env st)).checkingAvailability = false) := by
  obtain ⟨h1, h2, h3, h4, h5⟩ := applyEffects_frame (checkAvailability env st) st
  refine ⟨h1, h2, h3, h4, h5, ?_, ?_, ?_, ?_⟩
  · obtain ⟨msg, _, hshape | ⟨mid, hshape, hmid⟩⟩ := checkAvailability_shape env st
    · rw [hshape]
      simp [Effect.isRequest]
    · rw [hshape]
      rcases hmid with ⟨l, rfl⟩ | ⟨req, rfl⟩ | ⟨req, l, rfl⟩ <;>
        simp [Effect.isRequest, List.filter]
  · intro eff hmem hreq
    cases eff with
    | bookingsAPI_checkAvailability req => exact ⟨req, rfl⟩
    | bookingsAPI_create booking =>
      exfalso
      obtain ⟨msg, _, hshape | ⟨mid, hshape, hmid⟩⟩ := checkAvailability_shape env st
      · rw [hshape] at hmem
        simp at hmem
      · rw [hshape] at hmem
        rcases hmid with ⟨l, rfl⟩ | ⟨req, rfl⟩ | ⟨req, l, rfl⟩ <;> simp at hmem
    | setAvailabilityMessage _ => simp [Effect.isRequest] at hreq
    | setCheckingAvailability _ => simp [Effect.isRequest] at hreq
    | consoleError _ => simp [Effect.isRequest] at hreq
    | preventDefault => simp [Effect.isRequest] at hreq
    | alert _ => simp [Effect.isRequest] at hreq
    | navigate _ => simp [Effect.isRequest] at hreq
  · intro hflag
    obtain ⟨msg, _, hshape | ⟨mid, hshape, hmid⟩⟩ := checkAvailability_shape env st
    · rw [hshape]
      simpa [applyEffects, applyEffect] using hflag
    · rw [hshape]
      rcases hmid with ⟨l, rfl⟩ | ⟨req, rfl⟩ | ⟨req, l, rfl⟩ <;>
        simp [applyEffects, applyEffect]
  · rintro ⟨value, hmem⟩
    obtain ⟨msg, _, hshape | ⟨mid, hshape, hmid⟩⟩ := checkAvailability_shape env st
    · rw [hshape] at hmem
      simp at hmem
    · rw [hshape]
      rcases hmid with ⟨l, rfl⟩ | ⟨req, rfl⟩ | ⟨req, l, rfl⟩ <;>
        simp [applyEffects, applyEffect]

/-- An answered query on a page whose flag is lowered leaves the flag lowered. -/
theorem checkAvailability_component_frame_example :
    (applyEffects (sampleState "2024-06-01T10:00" "2024-06-01T12:00")
        (checkAvailability (sampleEnv 1717232400000)
          (sampleState "2024-06-01T10:00" "2024-06-01T12:00"))).checkingAvailability
      = false :=
  (checkAvailability_component_frame (sampleEnv 1717232400000)
    (sampleState "2024-06-01T10:00" "2024-06-01T12:00")).2.2.2.2.2.2.2.1 rfl

/-- The message left on the page by a run that passed the validation with a vehicle
selected: the last message of the `try` block or of the `catch` block. -/
theorem checkAvailability_final_message (env : Env) (st : State) (v : Vehicle)
    (a b : Int)
    (hv : st.selectedVehicle = some v)
    (hsa : newDate env.parse st.bookingData.startDate = some a)
    (hsb : newDate env.parse st.bookingData.endDate = some b)
    (hlt : a < b) (hnow : env.now ≤ a) :
    (applyEffects st (checkAvailability env st)).availabilityMessage
      = match env.checkAvailabilityResponse
          { vehicleId := v.id, startDate := a, endDate := b } with
        | .rejected m =>
          "❌ " ++ orDefault m "Error checking availability. Please try again."
        | .resolved data =>
          if data.success && data.available then
            orDefault data.message "✓ Vehicle is available for selected dates"
          else orDefault data.message "✗ Vehicle is not available for selected dates" := by
  have hnge : ¬ b ≤ a := not_le.mpr hlt
  have hnlt : ¬ a < env.now := not_lt.mpr hnow
  have hs : st.bookingData.startDate ≠ "" := by
    intro h
    simp [newDate, h] at hsa
  have he : st.bookingData.endDate ≠ "" := by
    intro h
    simp [newDate, h] at hsb
  have hrun : checkAvailability env st
      = [.setCheckingAvailability true, .setAvailabilityMessage ""]
        ++ (checkAvailabilityTry env st (some a) (some b)).1
        ++ (match (checkAvailabilityTry env st (some a) (some b)).2 with
            | none => []
            | some err =>
              [.consoleError "Error checking availability:",
               .setAvailabilityMessage
                 ("❌ " ++ orDefault err.responseMessage
                   "Error checking availability. Please try again.")])
        ++ [.setCheckingAvailability false] := by
    simp [checkAvailability, hs, he, hsa, hsb, JSDate.ge, JSDate.lt, hnge, hnlt]
  rw [hrun]
  cases hr : env.checkAvailabilityResponse
      { vehicleId := v.id, startDate := a, endDate := b } with
  | rejected m =>
    simp [checkAvailabilityTry, hv, JSDate.toISOString, hr, applyEffects, applyEffect,
      JSError.responseMessage]
  | resolved data =>
    by_cases hd : (data.success && data.available) = true
    · simp [checkAvailabilityTry, hv, JSDate.toISOString, hr, hd, applyEffects, applyEffect]
    · simp [checkAvailabilityTry, hv, JSDate.toISOString, hr, hd, applyEffects, applyEffect]

/-- C15: after every run of `checkAvailability` the availability message is non-empty.
When the backend answers without reporting the vehicle available, the message is the
backend's message if it supplies a non-empty one and "Vehicle is not available for
selected dates" otherwise; when the request fails, it is the cross mark followed by the
backend's message if there is one and by "Error checking availability. Please try
again." otherwise. -/
theorem checkAvailability_reason (env : Env) (st : State) :
    (applyEffects st (checkAvailability env st)).availabilityMessage ≠ ""
      ∧ ∀ (v : Vehicle) (a b : Int), st.selectedVehicle = some v →
          newDate env.parse st.bookingData.startDate = some a →
          newDate env.parse st.bookingData.endDate = some b → a < b → env.now ≤ a →
          (∀ data, env.checkAvailabilityResponse
                { vehicleId := v.id, startDate := a, endDate := b } = .resolved data →
              (data.success && data.available) = false →
              (∀ m, data.message = some m → m ≠ "" →
                (applyEffects st (checkAvailability env st)).availabilityMessage = m)
              ∧ (data.message = none ∨ data.message = some "" →
                (applyEffects st (checkAvailability env st)).availabilityMessage
                  = "✗ Vehicle is not available for selected dates"))
          ∧ (∀ r, env.checkAvailabilityResponse
                { vehicleId := v.id, startDate := a, endDate := b } = .rejected r →
              (∀ m, r = some m → m ≠ "" →
                (applyEffects st (checkAvailability env st)).availabilityMessage
                  = "❌ " ++ m)
              ∧ (r = none ∨ r = some "" →
                (applyEffects st (checkAvailability env st)).availabilityMessage
                  = "❌ Error checking availability. Please try again.")) := by
  constructor
  · obtain ⟨msg, hne, hshape | ⟨mid, hshape, hmid⟩⟩ := checkAvailability_shape env st
    · rw [hshape]
      simpa [applyEffects, applyEffect] using hne
    · rw [hshape]
      rcases hmid with ⟨l, rfl⟩ | ⟨req, rfl⟩ | ⟨req, l, rfl⟩ <;>
        simpa [applyEffects, applyEffect] using hne
  · intro v a b hv hsa hsb hlt hnow
    have hfin := checkAvailability_final_message env st v a b hv hsa hsb hlt hnow
    constructor
    · intro data hr hd
      rw [hfin, hr]
      constructor
      · intro m hm hne
        simp [hd, hm, orDefault, hne]
      · rintro (hm | hm) <;> simp [hd, hm, orDefault]
    · intro r hr
      rw [hfin, hr]
      constructor
      · intro m hm hne
        simp [hm, orDefault, hne]
      · rintro (hm | hm)
        · simp only [hm, orDefault]
          decide
        · simp only [hm, orDefault, if_true]
          decide

/-- Witness of C15: the backend rejects the query for 10:00 to 12:00 with the message
"Vehicle not found"; the page shows it after the cross mark. -/
theorem checkAvailability_reason_witness :
    (applyEffects (sampleState "2024-06-01T10:00" "2024-06-01T12:00")
        (checkAvailability
          { sampleEnv 1717232400000 with
            checkAvailabilityResponse := fun _ => .rejected (some "Vehicle not found") }
          (sampleState "2024-06-01T10:00" "2024-06-01T12:00"))).availabilityMessage
      = "❌ " ++ "Vehicle not found" :=
  ((checkAvailability_reason
      { sampleEnv 1717232400000 with
        checkAvailabilityResponse := fun _ => .rejected (some "Vehicle not found") }
      (sampleState "2024-06-01T10:00" "2024-06-01T12:00")).2 sampleVehicle
      1717236000000 1717243200000 rfl (by decide) (by decide) (by decide)
      (by decide)).2 (some "Vehicle not found") rfl |>.1 "Vehicle not found" rfl (by decide)

end VehicleBooking

namespace Api

/-- After `removeItem key` no entry has that key, and the other entries are kept. -/
theorem getItem_removeItem (key other : String) (storage : LocalStorage) :
    getItem other (removeItem key storage)
      = if other = key then none else getItem other storage := by
  induction storage with
  | nil => simp [getItem, removeItem]
  | cons kv rest ih =>
    by_cases hk : kv.1 = key
    · have hrm : removeItem key (kv :: rest) = removeItem key rest := by
        simp [removeItem, hk]
      rw [hrm, ih]
      by_cases ho : other = key
      · simp [ho]
      · have hne : ¬ kv.1 = other := fun h => ho (h ▸ hk)
        have hb : (kv.1 == other) = false := by simpa using hne
        simp [ho, getItem, List.find?_cons, hb]
    · have hrm : removeItem key (kv :: rest) = kv :: removeItem key rest := by
        simp [removeItem, hk]
      rw [hrm]
      by_cases hko : kv.1 = other
      · have ho : ¬ other = key := fun h => hk (hko ▸ h)
        simp [getItem, List.find?, hko, ho]
      · have hb : (kv.1 == other) = false := by simpa using hko
        have hstep : ∀ l, getItem other (kv :: l) = getItem other l := by
          intro l
          simp [getItem, List.find?_cons, hb]
        rw [hstep, hstep, ih]

/-- C16: the rejection handler of the response interceptor rejects with the error it
was given. When the response status is 401 it removes `token` and `user` from local
storage, keeping every other entry; for every other error, errors without a response
included, local storage is unchanged. -/
theorem responseErrorInterceptor_spec (error : AxiosError) (browser : Browser) :
    (responseErrorInterceptor error browser).2 = error
      ∧ ((∃ r, error.response = some r ∧ r.status = 401) →
          getItem "token" (responseErrorInterceptor error browser).1.localStorage = none
            ∧ getItem "user" (responseErrorInterceptor error browser).1.localStorage = none
            ∧ ∀ key, key ≠ "token" → key ≠ "user" →
                getItem key (responseErrorInterceptor error browser).1.localStorage
                  = getItem key browser.localStorage)
      ∧ (¬ (∃ r, error.response = some r ∧ r.status = 401) →
          (responseErrorInterceptor error browser).1 = browser) := by
  refine ⟨?_, ?_, ?_⟩
  · unfold responseErrorInterceptor
    split <;> rfl
  · rintro ⟨r, hr, hs⟩
    have h : responseErrorInterceptor error browser
        = ({ localStorage := removeItem "user" (removeItem "token" browser.localStorage),
             locationHref := "/" }, error) := by
      simp [responseErrorInterceptor, hr, hs]
    rw [h]
    refine ⟨?_, ?_, ?_⟩
    · simp [getItem_removeItem]
    · simp [getItem_removeItem]
    · intro key h1 h2
      simp [getItem_removeItem, h1, h2]
  · intro hno
    have hcond : ¬ (error.response.map (fun r => r.status) = some 401) := by
      intro h
      cases hr : error.response with
      | none => simp [hr] at h
      | some r =>
        simp [hr] at h
        exact hno ⟨r, hr, h⟩
    simp [responseErrorInterceptor, hcond]

/-- Witness of C16: a 401 answer on a browser holding a token, a user and a theme. -/
theorem responseErrorInterceptor_spec_witness :
    getItem "token" (responseErrorInterceptor
        { response := some { status := 401, message := none } }
        { localStorage := [("token", "abc"), ("theme", "dark"), ("user", "asha")],
          locationHref := "/my-bookings" }).1.localStorage = none
      ∧ getItem "user" (responseErrorInterceptor
        { response := some { status := 401, message := none } }
        { localStorage := [("token", "abc"), ("theme", "dark"), ("user", "asha")],
          locationHref := "/my-bookings" }).1.localStorage = none
      ∧ ∀ key, key ≠ "token" → key ≠ "user" →
          getItem key (responseErrorInterceptor
            { response := some { status := 401, message := none } }
            { localStorage := [("token", "abc"), ("theme", "dark"), ("user", "asha")],
              locationHref := "/my-bookings" }).1.localStorage
            = getItem key [("token", "abc"), ("theme", "dark"), ("user", "asha")] :=
  (responseErrorInterceptor_spec
    { response := some { status := 401, message := none } }
    { localStorage := [("token", "abc"), ("theme", "dark"), ("user", "asha")],
      locationHref := "/my-bookings" }).2.1
    ⟨{ status := 401, message := none }, rfl, rfl⟩

end Api

namespace CustomerSignup

/-- C17: `handleSubmit` calls `customersAPI.signup` exactly when the password equals
the confirmation and its length is at least 6. Otherwise the run is `preventDefault`,
the two initial setters, one error message ("Passwords do not match" when the two
differ, else "Password must be at least 6 characters long") and `setLoading(false)`: no
request is sent and loading ends false. -/
theorem handleSubmit_signup_iff (signupResponse : CustomerData → ApiOutcome)
    (formData : FormData) (st : State) :
    ((∃ data, Effect.customersAPI_signup data ∈ handleSubmit signupResponse formData)
        ↔ formData.password = formData.confirmPassword ∧ 6 ≤ jsLength formData.password)
      ∧ (formData.password ≠ formData.confirmPassword →
          handleSubmit signupResponse formData
            = [.preventDefault, .setLoading true, .setError "",
               .setError "Passwords do not match", .setLoading false])
      ∧ (formData.password = formData.confirmPassword → jsLength formData.password < 6 →
          handleSubmit signupResponse formData
            = [.preventDefault, .setLoading true, .setError "",
               .setError "Password must be at least 6 characters long",
               .setLoading false])
      ∧ (¬ (formData.password = formData.confirmPassword
            ∧ 6 ≤ jsLength formData.password) →
          (applyEffects st (handleSubmit signupResponse formData)).loading = false
            ∧ (applyEffects st (handleSubmit signupResponse formData)).error ≠ "") := by
  have hA : formData.password ≠ formData.confirmPassword →
      handleSubmit signupResponse formData
        = [.preventDefault, .setLoading true, .setError "",
           .setError "Passwords do not match", .setLoading false] := by
    intro h
    simp [handleSubmit, h]
  have hB : formData.password = formData.confirmPassword →
      jsLength formData.password < 6 →
      handleSubmit signupResponse formData
        = [.preventDefault, .setLoading true, .setError "",
           .setError "Password must be at least 6 characters long",
           .setLoading false] := by
    intro h1 h2
    simp [handleSubmit, h1, h1 ▸ h2]
  refine ⟨?_, hA, hB, ?_⟩
  · constructor
    · rintro ⟨data, hmem⟩
      by_cases h1 : formData.password = formData.confirmPassword
      · by_cases h2 : jsLength formData.password < 6
        · rw [hB h1 h2] at hmem
          simp at hmem
        · exact ⟨h1, not_lt.mp h2⟩
      · rw [hA h1] at hmem
        simp at hmem
    · rintro ⟨h1, h2⟩
      have h2' : ¬ jsLength formData.confirmPassword < 6 := by
        rw [← h1]
        exact not_lt.mpr h2
      refine ⟨{ username := formData.username, email := formData.email,
                password := formData.password, name := formData.name,
                phoneNumber := formData.phoneNumber }, ?_⟩
      simp only [handleSubmit, h1, ne_eq, not_true_eq_false, if_false, h2']
      split
      · simp
      · split <;> simp
  · intro hbad
    by_cases h1 : formData.password = formData.confirmPassword
    · have h2 : jsLength formData.password < 6 := by
        by_contra h
        exact hbad ⟨h1, not_lt.mp h⟩
      rw [hB h1 h2]
      exact ⟨rfl, by simp [applyEffects, applyEffect]⟩
    · rw [hA h1]
      exact ⟨rfl, by simp [applyEffects, applyEffect]⟩

/-- Witness of C17: a five-letter password that matches its confirmation is refused
with the length message and nothing is sent. -/
theorem handleSubmit_signup_iff_witness :
    handleSubmit acceptingBackend (sampleForm "abcde" "abcde")
      = [.preventDefault, .setLoading true, .setError "",
         .setError "Password must be at least 6 characters long", .setLoading false] :=
  (handleSubmit_signup_iff acceptingBackend (sampleForm "abcde" "abcde")
    { loading := false, error := "" }).2.2.1 rfl (by decide)

end CustomerSignup

/-- Inserting into a list gives the same result for two relations that agree between
the inserted element and the elements of the list. -/
theorem orderedInsert_congr {α : Type} (r r' : α → α → Prop) [DecidableRel r]
    [DecidableRel r'] (a : α) (l : List α) (h : ∀ b ∈ l, (r a b ↔ r' a b)) :
    l.orderedInsert r a = l.orderedInsert r' a := by
  induction l with
  | nil => rfl
  | cons b rest ih =>
    have hb : r a b ↔ r' a b := h b (List.mem_cons_self b rest)
    have hrest := ih (fun c hc => h c (List.mem_cons_of_mem b hc))
    by_cases hab : r a b
    · simp [List.orderedInsert, hab, hb.mp hab]
    · have hab' : ¬ r' a b := fun h' => hab (hb.mpr h')
      simp [List.orderedInsert, hab, hab', hrest]

/-- Insertion sort gives the same result for two relations that agree on the elements
of the list. -/
theorem insertionSort_congr {α : Type} (r r' : α → α → Prop) [DecidableRel r]
    [DecidableRel r'] (l : List α) (h : ∀ a ∈ l, ∀ b ∈ l, (r a b ↔ r' a b)) :
    l.insertionSort r = l.insertionSort r' := by
  induction l with
  | nil => rfl
  | cons a rest ih =>
    have hrest := ih (fun x hx y hy =>
      h x (List.mem_cons_of_mem a hx) y (List.mem_cons_of_mem a hy))
    simp only [List.insertionSort]
    rw [hrest]
    apply orderedInsert_congr
    intro b hb
    have hb' : b ∈ rest := (List.mem_insertionSort r').mp hb
    exact h a (List.mem_cons_self a rest) b (List.mem_cons_of_mem a hb')

namespace MyBookings

/-- On bookings with valid creation dates the comparator puts `a` before `b` exactly
when `a` is not older than `b`. -/
theorem newestFirst_le_zero_iff (a b : Booking) (ha : a.createdAt ≠ none)
    (hb : b.createdAt ≠ none) :
    (newestFirst a b).getD 0 ≤ 0 ↔ b.createdAt.getD 0 ≤ a.createdAt.getD 0 := by
  cases hx : a.createdAt with
  | none => exact absurd hx ha
  | some x =>
    cases hy : b.createdAt with
    | none => exact absurd hy hb
    | some y =>
      simp only [newestFirst, hx, hy, JSDate.sub, Option.getD_some]
      omega

/-- The sorted list is a permutation of the given one. -/
theorem arraySort_perm (l : List Booking) : (arraySort newestFirst l).Perm l :=
  List.perm_insertionSort _ l

/-- On bookings with valid creation dates the sorted list is ordered from newest to
oldest. -/
theorem arraySort_newestFirst_sorted (l : List Booking)
    (hvalid : ∀ b ∈ l, b.createdAt ≠ none) :
    (arraySort newestFirst l).Pairwise
      (fun a b => JSDate.ge a.createdAt b.createdAt = true) := by
  have hcongr : arraySort newestFirst l
      = l.insertionSort (fun (a b : Booking) => b.createdAt.getD 0 ≤ a.createdAt.getD 0) := by
    unfold arraySort
    apply insertionSort_congr
    intro a ha b hb
    exact newestFirst_le_zero_iff a b (hvalid a ha) (hvalid b hb)
  haveI : IsTotal Booking (fun (a b : Booking) => b.createdAt.getD 0 ≤ a.createdAt.getD 0) :=
    ⟨fun a b => le_total _ _⟩
  haveI : IsTrans Booking (fun (a b : Booking) => b.createdAt.getD 0 ≤ a.createdAt.getD 0) :=
    ⟨fun a b c hab hbc => le_trans hbc hab⟩
  have hsorted : (l.insertionSort
      (fun (a b : Booking) => b.createdAt.getD 0 ≤ a.createdAt.getD 0)).Pairwise
      (fun (a b : Booking) => b.createdAt.getD 0 ≤ a.createdAt.getD 0) :=
    List.sorted_insertionSort (fun (a b : Booking) => b.createdAt.getD 0 ≤ a.createdAt.getD 0) l
  rw [hcongr]
  refine List.Pairwise.imp_of_mem ?_ hsorted
  intro a b ha hb hab
  have ha' : a.createdAt ≠ none := hvalid a ((List.mem_insertionSort _).mp ha)
  have hb' : b.createdAt ≠ none := hvalid b ((List.mem_insertionSort _).mp hb)
  cases hx : a.createdAt with
  | none => exact absurd hx ha'
  | some x =>
    cases hy : b.createdAt with
    | none => exact absurd hy hb'
    | some y =>
      simp only [hx, hy, Option.getD_some] at hab
      simp [JSDate.ge, hab]

/-- C18: for a fetched list whose bookings have valid creation dates, `fetchBookings`
stores a permutation of the fetched list that is ordered by creation date from newest
to oldest, and two bookings with the same creation date keep their fetched order. -/
theorem fetchBookings_sorted (userId : Nat) (response : Nat → Option (List Booking))
    (bookingsData : List Booking)
    (hresp : response userId = some bookingsData)
    (hvalid : ∀ b ∈ bookingsData, b.createdAt ≠ none) :
    ∃ stored, fetchBookings (some userId) response
        = [.setLoading true, .bookingsAPI_getByUser userId, .setBookings stored,
           .setLoading false]
      ∧ stored.Perm bookingsData
      ∧ stored.Pairwise (fun a b => JSDate.ge a.createdAt b.createdAt = true)
      ∧ ∀ a b, a.createdAt = b.createdAt → List.Sublist [a, b] bookingsData →
          List.Sublist [a, b] stored := by
  refine ⟨arraySort newestFirst bookingsData, ?_, arraySort_perm bookingsData,
    arraySort_newestFirst_sorted bookingsData hvalid, ?_⟩
  · simp [fetchBookings, hresp]
  · intro a b hab hsub
    have ha : a ∈ bookingsData := hsub.subset (by simp)
    have hr : (newestFirst a b).getD 0 ≤ 0 := by
      rw [newestFirst_le_zero_iff a b (hvalid a ha) (hab ▸ hvalid a ha), hab]
    exact List.pair_sublist_insertionSort hr hsub

/-- Witness of C18: of three bookings the second is the newest and moves to the front;
the first and the third, created at the same instant, keep their order. -/
theorem fetchBookings_sorted_witness :
    ∃ stored, fetchBookings (some 42) (fun _ => some sampleBookings)
        = [.setLoading true, .bookingsAPI_getByUser 42, .setBookings stored,
           .setLoading false]
      ∧ stored.Perm sampleBookings
      ∧ stored.Pairwise (fun a b => JSDate.ge a.createdAt b.createdAt = true)
      ∧ ∀ a b, a.createdAt = b.createdAt → List.Sublist [a, b] sampleBookings →
          List.Sublist [a, b] stored :=
  fetchBookings_sorted 42 (fun _ => some sampleBookings) sampleBookings rfl (by decide)

end MyBookings

namespace CustomerDashboard

/-- C19: for `n` bookings with valid creation dates, `recentBookings` holds exactly
`min 5 n` bookings, ordered from newest to oldest; together with the bookings left out
they are a rearrangement of the given list, and no booking left out was created later
than a booking that is included. -/
theorem recentBookings_latest (bookings : List MyBookings.Booking)
    (hvalid : ∀ b ∈ bookings, b.createdAt ≠ none) :
    (recentBookings bookings).length = min 5 bookings.length
      ∧ (recentBookings bookings).Pairwise
          (fun a b => JSDate.ge a.createdAt b.createdAt = true)
      ∧ ∃ rest, (recentBookings bookings ++ rest).Perm bookings
          ∧ ∀ x ∈ recentBookings bookings, ∀ y ∈ rest,
              JSDate.ge x.createdAt y.createdAt = true := by
  have hsorted := MyBookings.arraySort_newestFirst_sorted bookings hvalid
  have hperm := MyBookings.arraySort_perm bookings
  refine ⟨?_, ?_, (arraySort MyBookings.newestFirst bookings).drop 5, ?_, ?_⟩
  · simp [recentBookings, List.length_take, hperm.length_eq]
  · exact hsorted.sublist (List.take_sublist 5 _)
  · simp only [recentBookings, List.take_append_drop]
    exact hperm
  · intro x hx y hy
    exact List.Sorted.rel_of_mem_take_of_mem_drop hsorted hx hy

/-- Witness of C19 on three bookings: all of them are recent. -/
theorem recentBookings_latest_witness :
    (recentBookings MyBookings.sampleBookings).length
        = min 5 MyBookings.sampleBookings.length
      ∧ (recentBookings MyBookings.sampleBookings).Pairwise
          (fun a b => JSDate.ge a.createdAt b.createdAt = true)
      ∧ ∃ rest, (recentBookings MyBookings.sampleBookings ++ rest).Perm
            MyBookings.sampleBookings
          ∧ ∀ x ∈ recentBookings MyBookings.sampleBookings, ∀ y ∈ rest,
              JSDate.ge x.createdAt y.createdAt = true :=
  recentBookings_latest MyBookings.sampleBookings (by decide)

end CustomerDashboard

namespace DriverRoutes

/-- C20: the filtered list is the route list itself for the filter `all`, the routes of
status `assigned` for `pending`, the routes of status `in_progress` for `active` and
the routes of status `completed` for `completed`, always in the order of the route
list. -/
theorem filteredRoutes_spec (routes : List Route) :
    filteredRoutes "all" routes = routes
      ∧ filteredRoutes "pending" routes
          = routes.filter (fun route => route.status == "assigned")
      ∧ filteredRoutes "active" routes
          = routes.filter (fun route => route.status == "in_progress")
      ∧ filteredRoutes "completed" routes
          = routes.filter (fun route => route.status == "completed")
      ∧ (∀ route, route ∈ filteredRoutes "pending" routes
          ↔ route ∈ routes ∧ route.status = "assigned")
      ∧ (∀ route, route ∈ filteredRoutes "active" routes
          ↔ route ∈ routes ∧ route.status = "in_progress")
      ∧ (∀ route, route ∈ filteredRoutes "completed" routes
          ↔ route ∈ routes ∧ route.status = "completed")
      ∧ ∀ filter, List.Sublist (filteredRoutes filter routes) routes := by
  have hp : filteredRoutes "pending" routes
      = routes.filter (fun route => route.status == "assigned") := by
    simp [filteredRoutes]
  have ha : filteredRoutes "active" routes
      = routes.filter (fun route => route.status == "in_progress") := by
    simp [filteredRoutes]
  have hc : filteredRoutes "completed" routes
      = routes.filter (fun route => route.status == "completed") := by
    simp [filteredRoutes]
  refine ⟨by simp [filteredRoutes], hp, ha, hc, ?_, ?_, ?_, ?_⟩
  · intro route
    rw [hp]
    simp [List.mem_filter]
  · intro route
    rw [ha]
    simp [List.mem_filter]
  · intro route
    rw [hc]
    simp [List.mem_filter]
  · intro filter
    exact List.filter_sublist routes

/-- A run of C20 on five routes: the filter `pending` keeps the two assigned routes, in
their order. -/
theorem filteredRoutes_spec_witness :
    filteredRoutes "pending" sampleRoutes
      = [{ id := 1, status := "assigned" }, { id := 4, status := "assigned" }] :=
  ((filteredRoutes_spec sampleRoutes).2.1).trans (by decide)

end DriverRoutes

namespace FleetMap

/-- The drivers behind the entries of `driverLocations` are the drivers whose two
coordinate fields are truthy, in the order of the driver list. -/
theorem driverLocations_driverInfo (parse : String → JSNumber) (drivers : List Driver) :
    (driverLocations parse drivers).map (fun location => location.driverInfo)
      = drivers.filter (fun driver => driver.latitude.truthy && driver.longitude.truthy) := by
  unfold driverLocations
  rw [List.filter_true, List.map_map]
  have h : ∀ (n : Nat) (l : List Driver),
      List.map ((fun (location : DriverLocation) => location.driverInfo) ∘
        (fun (entry : Nat × Driver) =>
          ({ id := orDefault entry.2.id ("driver-" ++ toString entry.1)
             position := (entry.2.latitude.parseFloat parse,
               entry.2.longitude.parseFloat parse)
             driverInfo := entry.2
             gpsEnabled := entry.2.gpsEnabled
             speed := entry.2.currentSpeed.getD 0
             lastUpdate := entry.2.lastLocationUpdate } : DriverLocation)))
        (List.enumFrom n l) = l := by
    intro n l
    induction l generalizing n with
    | nil => rfl
    | cons d rest ih =>
      simp only [List.enumFrom, List.map_cons, Function.comp]
      rw [List.cons.injEq]
      exact ⟨rfl, ih (n + 1)⟩
  exact h 0 _

/-- The map centre is the position of the first entry, whatever its GPS flag, and the
default centre when there is no entry. -/
theorem mapCenter_eq_first (locations : List DriverLocation) :
    mapCenter locations
      = ((locations.head?).map (fun location => location.position)).getD
          (some defaultCenter.1, some defaultCenter.2) := by
  unfold mapCenter
  cases locations.head? with
  | none => rfl
  | some first => simp

/-- C21 (defect of the code): a driver whose latitude is the non-numeric string "N/A"
has truthy coordinate fields, so it appears in `driverLocations`, with a NaN latitude;
a driver whose latitude is the number 0, which parses to 0, is dropped. -/
theorem driverLocations_truthiness_defect :
    (driverLocations sampleParseFloat
        [sampleDriver "d1" (.string "N/A") (.string "80.2707") true]).map
        (fun location => (location.id, location.position))
      = [("d1", (none, some 80.2707))]
      ∧ JSValue.parseFloat sampleParseFloat (.number (some 0)) = some 0
      ∧ JSValue.parseFloat sampleParseFloat (.number (some 80.2707)) = some 80.2707
      ∧ driverLocations sampleParseFloat
          [sampleDriver "d2" (.number (some 0)) (.number (some 80.2707)) true] = [] := by
  refine ⟨?_, rfl, rfl, ?_⟩
  · simp [driverLocations, sampleDriver, JSValue.truthy, JSValue.parseFloat,
      sampleParseFloat, List.enum, List.enumFrom, orDefault]
  · simp [driverLocations, sampleDriver, JSValue.truthy]

/-- C22 (defect of the code): of two drivers with coordinates the second is
GPS-enabled and the first is not; `mapCenter` is the position of the first one. -/
theorem mapCenter_ignores_gps :
    (driverLocations sampleParseFloat mixedDrivers).map
        (fun location => (location.id, location.gpsEnabled, location.position))
      = [("d1", false, (some 12.9716, some 77.5946)),
         ("d2", true, (some 13.0827, some 80.2707))]
      ∧ mapCenter (driverLocations sampleParseFloat mixedDrivers)
        = (some 12.9716, some 77.5946)
      ∧ ((some 12.9716, some 77.5946) : JSNumber × JSNumber)
        ≠ (some 13.0827, some 80.2707) := by
  refine ⟨?_, ?_, ?_⟩
  · simp [driverLocations, mixedDrivers, sampleDriver, JSValue.truthy, JSValue.parseFloat,
      sampleParseFloat, List.enum, List.enumFrom, orDefault]
  · simp [mapCenter, driverLocations, mixedDrivers, sampleDriver, JSValue.truthy,
      JSValue.parseFloat, sampleParseFloat, List.enum, List.enumFrom, orDefault]
  · intro h
    have h1 := congrArg Prod.fst h
    simp only [Option.some.injEq] at h1
    norm_num at h1

end FleetMap

namespace DriverTelemetry

/-- For a logged-in driver and a resolved request, `fetchTelemetryData` takes the
current location from the first record of the returned list and sets none when the list
is empty. -/
theorem fetchTelemetryData_first (env : Env) (driverId : Nat)
    (data : List TelemetryRecord)
    (huser : env.storedUser = some (.ok (some driverId)))
    (hresp : env.response driverId = some data) :
    fetchTelemetryData env
      = [.setLoading true, .telemetryAPI_getByDriver driverId, .setTelemetryData data]
        ++ (match data with
            | latest :: _ =>
              [.setCurrentLocation
                { lat := latest.latitude.parseFloat env.parse
                  lng := latest.longitude.parseFloat env.parse
                  speed := latest.speed
                  timestamp := latest.timestamp }]
            | [] => [])
        ++ [.setLoading false] := by
  cases data with
  | nil => simp [fetchTelemetryData, huser, hresp]
  | cons latest rest => simp [fetchTelemetryData, huser, hresp]

/-- C23 (defect of the code): the backend returns two records in the order they were
recorded, 10:00 then 12:00; `fetchTelemetryData` sets the current location from the
first of them, the record of 10:00, although the record of 12:00 is the one with the
greatest timestamp. -/
theorem fetchTelemetryData_takes_first_record :
    fetchTelemetryData (sampleEnv sampleHistory)
      = [.setLoading true, .telemetryAPI_getByDriver 5, .setTelemetryData sampleHistory,
         .setCurrentLocation
           { lat := some 12.9716, lng := some 77.5946, speed := .string "40",
             timestamp := 1717236000000 },
         .setLoading false]
      ∧ (∃ record ∈ sampleHistory, (1717236000000 : Int) < record.timestamp)
      ∧ ∀ record ∈ sampleHistory, record.timestamp ≤ 1717243200000 := by
  refine ⟨?_, ?_, ?_⟩
  · simp [fetchTelemetryData, sampleEnv, sampleHistory, JSValue.parseFloat,
      FleetMap.sampleParseFloat]
  · exact ⟨_, List.mem_cons_of_mem _ (List.mem_cons_self _ _), by decide⟩
  · intro record hmem
    simp only [sampleHistory, List.mem_cons, List.mem_singleton, List.not_mem_nil,
      or_false] at hmem
    rcases hmem with h | h <;> subst h <;> decide

end DriverTelemetry

namespace VehicleBooking

/-- C24: with a vehicle selected, a user logged in and both dates non-empty and
parsed, `checkAvailability` and `handleSubmit` take the decision the design states:
for `startDate >= endDate` both report the invalid interval, also when the start is in
the past; otherwise for `startDate < now` both report the past start date; otherwise
both go on to their request. -/
theorem validation_agrees (env : Env) (st : State) (v : Vehicle) (u : User) (a b : Int)
    (hv : st.selectedVehicle = some v) (hu : env.currentUser = some u)
    (hsa : newDate env.parse st.bookingData.startDate = some a)
    (hsb : newDate env.parse st.bookingData.endDate = some b) :
    match specValidation a b env.now with
    | .invalidInterval =>
      checkAvailability env st
          = [.setAvailabilityMessage "⚠️ End date must be after start date"]
        ∧ handleSubmit env st
          = [.preventDefault, .alert "End date must be after start date"]
    | .pastStartDate =>
      checkAvailability env st
          = [.setAvailabilityMessage "⚠️ Start date cannot be in the past"]
        ∧ handleSubmit env st
          = [.preventDefault, .alert "Start date cannot be in the past"]
    | .passed =>
      (∃ rest, checkAvailability env st
          = .setCheckingAvailability true :: .setAvailabilityMessage "" ::
              .bookingsAPI_checkAvailability
                { vehicleId := v.id, startDate := a, endDate := b } :: rest)
        ∧ ∃ booking rest, handleSubmit env st
            = .preventDefault :: .bookingsAPI_create booking :: rest
          ∧ booking.startDate = a ∧ booking.endDate = b := by
  have hs : st.bookingData.startDate ≠ "" := by
    intro h
    simp [newDate, h] at hsa
  have he : st.bookingData.endDate ≠ "" := by
    intro h
    simp [newDate, h] at hsb
  by_cases hge : b ≤ a
  · have hspec : specValidation a b env.now = .invalidInterval := by
      simp [specValidation, hge]
    rw [hspec]
    exact ⟨by simp [checkAvailability, hs, he, hsa, hsb, JSDate.ge, hge],
      by simp [handleSubmit, hv, hu, hsa, hsb, JSDate.ge, hge]⟩
  · by_cases hpast : a < env.now
    · have hspec : specValidation a b env.now = .pastStartDate := by
        simp [specValidation, hge, hpast]
      rw [hspec]
      exact ⟨by simp [checkAvailability, hs, he, hsa, hsb, JSDate.ge, JSDate.lt, hge, hpast],
        by simp [handleSubmit, hv, hu, hsa, hsb, JSDate.ge, JSDate.lt, hge, hpast]⟩
    · have hspec : specValidation a b env.now = .passed := by
        simp [specValidation, hge, hpast]
      rw [hspec]
      constructor
      · simp only [checkAvailability, hs, he, hsa, hsb, JSDate.ge, JSDate.lt, hge, hpast,
          or_self, if_false, decide_False, Bool.false_eq_true, checkAvailabilityTry, hv,
          JSDate.toISOString]
        split
        · exact ⟨_, rfl⟩
        · split <;> exact ⟨_, rfl⟩
      · simp only [handleSubmit, hv, hu, hsa, hsb, JSDate.ge, JSDate.lt, hge, hpast,
          decide_False, Bool.false_eq_true, if_false, handleSubmitTry, JSDate.toISOString]
        split
        · exact ⟨_, _, rfl, rfl, rfl⟩
        · split <;> exact ⟨_, _, rfl, rfl, rfl⟩

/-- Witness of C24: a booking from 12:00 back to 10:00 submitted at 13:00 has both
`startDate >= endDate` and `startDate < now`; both handlers report the invalid
interval. -/
theorem validation_agrees_witness :
    checkAvailability (sampleEnv 1717246800000)
          (sampleState "2024-06-01T12:00" "2024-06-01T10:00")
        = [.setAvailabilityMessage "⚠️ End date must be after start date"]
      ∧ handleSubmit (sampleEnv 1717246800000)
          (sampleState "2024-06-01T12:00" "2024-06-01T10:00")
        = [.preventDefault, .alert "End date must be after start date"] :=
  validation_agrees (sampleEnv 1717246800000)
    (sampleState "2024-06-01T12:00" "2024-06-01T10:00") sampleVehicle sampleUser
    1717243200000 1717236000000 rfl rfl (by decide) (by decide)

end VehicleBooking

namespace VehicleBooking

/-- The interceptor leaves the browser alone, or the answer is a 401 and the browser is
the cleared one. -/
theorem HttpOutcome.intercept_cases (browser : Api.Browser) (outcome : HttpOutcome) :
    outcome.intercept browser = browser
      ∨ ((∃ error r, outcome = .rejected error ∧ error.response = some r ∧ r.status = 401)
        ∧ outcome.intercept browser
          = { localStorage :=
                Api.removeItem "user" (Api.removeItem "token" browser.localStorage),
              locationHref := "/" }) := by
  cases outcome with
  | resolved data => exact Or.inl rfl
  | rejected error =>
    cases hr : error.response with
    | none =>
      left
      simp [HttpOutcome.intercept, Api.responseErrorInterceptor, hr]
    | some r =>
      by_cases hs : r.status = 401
      · right
        exact ⟨⟨error, r, rfl, hr, hs⟩,
          by simp [HttpOutcome.intercept, Api.responseErrorInterceptor, hr, hs]⟩
      · left
        simp [HttpOutcome.intercept, Api.responseErrorInterceptor, hr, hs]

/-- The browser after a run is the browser before it, or the browser after the
interceptor handled the answer to the one request of the run. -/
theorem checkAvailabilityInBrowser_browser (env : Env)
    (http : AvailabilityRequest → HttpOutcome) (st : State) (browser : Api.Browser) :
    (checkAvailabilityInBrowser env http st browser).2 = browser
      ∨ ∃ req, Effect.bookingsAPI_checkAvailability req
            ∈ (checkAvailabilityInBrowser env http st browser).1
          ∧ (checkAvailabilityInBrowser env http st browser).2
            = (http req).intercept browser := by
  obtain ⟨msg, _, hshape | ⟨mid, hshape, hmid⟩⟩ := checkAvailability_shape
    { env with checkAvailabilityResponse := fun req => (http req).observed } st
  · left
    simp [checkAvailabilityInBrowser, hshape]
  · rcases hmid with ⟨l, rfl⟩ | ⟨req, rfl⟩ | ⟨req, l, rfl⟩
    · left
      simp [checkAvailabilityInBrowser, hshape]
    · right
      exact ⟨req, by simp [checkAvailabilityInBrowser, hshape],
        by simp [checkAvailabilityInBrowser, hshape]⟩
    · right
      exact ⟨req, by simp [checkAvailabilityInBrowser, hshape],
        by simp [checkAvailabilityInBrowser, hshape]⟩

/-- Counterexample to C14 as stated: the availability request for 10:00 to 12:00 is
answered with status 401. The handler shows the error, and the response interceptor
has removed `token` and `user` from local storage and set the location to "/". -/
theorem checkAvailability_unauthorized_clears_session :
    (checkAvailabilityInBrowser (sampleEnv 1717232400000) unauthorized
        (sampleState "2024-06-01T10:00" "2024-06-01T12:00") sampleBrowser).1
        = [.setCheckingAvailability true, .setAvailabilityMessage "",
           .bookingsAPI_checkAvailability
             { vehicleId := 3, startDate := 1717236000000, endDate := 1717243200000 },
           .consoleError "Error checking availability:",
           .setAvailabilityMessage "❌ Unauthorized", .setCheckingAvailability false]
      ∧ (checkAvailabilityInBrowser (sampleEnv 1717232400000) unauthorized
          (sampleState "2024-06-01T10:00" "2024-06-01T12:00") sampleBrowser).2
        = { localStorage := [], locationHref := "/" }
      ∧ sampleBrowser
        = { localStorage := [("token", "abc"), ("user", "asha")],
            locationHref := "/book-vehicle" } := by
  decide

/-- C14, amended: for every input and every answer to the request, `checkAvailability`
leaves the form data, the selected vehicle and the vehicle list unchanged, sends at most
one request, the availability query, and ends with the in-progress flag false when it
was false before. The browser is unchanged as well, except when the request is answered
with status 401: then the response interceptor has removed `token` and `user` from local
storage and set the location to "/". -/
theorem checkAvailability_read_only_except_401 (env : Env)
    (http : AvailabilityRequest → HttpOutcome) (st : State) (browser : Api.Browser) :
    (applyEffects st (checkAvailabilityInBrowser env http st browser).1).bookingData
        = st.bookingData
      ∧ (applyEffects st (checkAvailabilityInBrowser env http st browser).1).selectedVehicle
        = st.selectedVehicle
      ∧ (applyEffects st (checkAvailabilityInBrowser env http st browser).1).vehicles
        = st.vehicles
      ∧ ((checkAvailabilityInBrowser env http st browser).1.filter Effect.isRequest).length
        ≤ 1
      ∧ (∀ eff ∈ (checkAvailabilityInBrowser env http st browser).1,
          eff.isRequest = true → ∃ req, eff = .bookingsAPI_checkAvailability req)
      ∧ (st.checkingAvailability = false →
          (applyEffects st
            (checkAvailabilityInBrowser env http st browser).1).checkingAvailability
            = false)
      ∧ ((∀ req error r, http req = .rejected error → error.response = some r →
            r.status ≠ 401) →
          (checkAvailabilityInBrowser env http st browser).2 = browser)
      ∧ ((checkAvailabilityInBrowser env http st browser).2 = browser
        ∨ (checkAvailabilityInBrowser env http st browser).2
          = { localStorage :=
                Api.removeItem "user" (Api.removeItem "token" browser.localStorage),
              locationHref := "/" }) := by
  have hframe := checkAvailability_component_frame
    { env with checkAvailabilityResponse := fun req => (http req).observed } st
  have hrun : (checkAvailabilityInBrowser env http st browser).1
      = checkAvailability
          { env with checkAvailabilityResponse := fun req => (http req).observed } st := rfl
  rw [hrun]
  obtain ⟨h1, h2, h3, _, _, h6, h7, h8, _⟩ := hframe
  refine ⟨h1, h2, h3, h6, h7, h8, ?_, ?_⟩
  · intro hno
    rcases checkAvailabilityInBrowser_browser env http st browser with h | ⟨req, _, h⟩
    · exact h
    · rw [h]
      rcases HttpOutcome.intercept_cases browser (http req) with hc | ⟨⟨error, r, he, hr, hs⟩, _⟩
      · exact hc
      · exact absurd hs (hno req error r he hr)
  · rcases checkAvailabilityInBrowser_browser env http st browser with h | ⟨req, _, h⟩
    · exact Or.inl h
    · rw [h]
      rcases HttpOutcome.intercept_cases browser (http req) with hc | ⟨_, hc⟩
      · exact Or.inl hc
      · exact Or.inr hc

/-- Witness of the amended C14: the request is answered with status 500; the customer
stays logged in on the booking page. -/
theorem checkAvailability_read_only_except_401_witness :
    (checkAvailabilityInBrowser (sampleEnv 1717232400000)
        (fun _ => .rejected { response := some { status := 500, message := none } })
        (sampleState "2024-06-01T10:00" "2024-06-01T12:00") sampleBrowser).2
      = sampleBrowser :=
  (checkAvailability_read_only_except_401 (sampleEnv 1717232400000)
      (fun _ => .rejected { response := some { status := 500, message := none } })
      (sampleState "2024-06-01T10:00" "2024-06-01T12:00") sampleBrowser).2.2.2.2.2.2.1
    (by
      intro req error r he hr
      cases he
      cases hr
      decide)

end VehicleBooking

namespace MyBookings

/-- The same backend carries out the cancellation of a pending booking: the store holds
the booking as cancelled and the page runs its success branch. -/
theorem handleCancelBooking_pending_succeeds :
    (BookingLifecycleManager.cancelEndpoint
        (BookingLifecycleManager.storeWithBooking .pending) "customer"
        BookingLifecycleManager.sampleReason 7).2
        = BookingLifecycleManager.storeWithBooking .cancelled
      ∧ handleCancelBooking
          (backendEnv (BookingLifecycleManager.storeWithBooking .pending) "customer"
            BookingLifecycleManager.sampleReason true) 7
        = [.windowConfirm "Are you sure you want to cancel this booking?",
           .bookingsAPI_cancel 7, .alert "Booking cancelled successfully",
           .fetchBookings, .setShowDetailsModal false] := by
  decide

end MyBookings

end NeuroFleetX
